import Mathlib

/-!
Verification development for the sequence-aware story recommender
(`rec2.py`).  The engine is shallowly embedded: Python floats become exact
rationals `ℚ` (timestamps are seconds since an arbitrary epoch), Python
dicts become ordered association lists keyed by `String` (Python 3.7+
dicts preserve insertion order; assignment to an existing key keeps its
position), and the half-life decay `0.5 ** x`, whose value is irrational,
lives in `ℝ` via `Real.rpow`.  Every implicit `datetime.now()` read in the
source is modelled by an explicit `wallClock : ℚ` argument representing
the physical instant of that call.  Python's shared mutable
`StoryTransition` objects (the same object is referenced from the user's
sequence list, the global transition list and the global transition
graph, and is mutated in place by the mood_after backfill) are modelled by
an artificial identity field `tid`, assigned from a fresh counter at
creation; an in-place mutation becomes a map over all containers patching
the entries with the matching `tid`.  `tid` is a modelling artifact, not a
field of the Python object, so cross-state comparisons use the
`tid`-erased `TransitionData` projection.
-/

namespace Rec2

/-- Association-list lookup, modelling Python `dict[k]` / `dict.get(k)` /
`k in dict` on an insertion-ordered dict. -/
def alook {β : Type} (l : List (String × β)) (k : String) : Option β :=
  match l with
  | [] => none
  | (k', v) :: rest => if k' = k then some v else alook rest k

/-- Association-list assignment `d[k] = v`, modelling Python dict
assignment: an existing key keeps its position, a new key is appended. -/
def aupsert {β : Type} (l : List (String × β)) (k : String) (v : β) :
    List (String × β) :=
  match l with
  | [] => [(k, v)]
  | (k', v') :: rest =>
    if k' = k then (k', v) :: rest else (k', v') :: aupsert rest k v

/-- In-place update of the value stored at `k`, modelling mutation of the
object held by a Python dict (`d[k].field = ...`).  No-op when the key is
absent (all source call sites guard membership first). -/
def aupdate {β : Type} (l : List (String × β)) (k : String) (f : β → β) :
    List (String × β) :=
  match l with
  | [] => []
  | (k', v') :: rest =>
    if k' = k then (k', f v') :: rest else (k', v') :: aupdate rest k f

/-- `defaultdict(list)` append: `d[k].append(v)`, creating the key with a
singleton list when absent. -/
def apush {β : Type} (l : List (String × List β)) (k : String) (v : β) :
    List (String × List β) :=
  match l with
  | [] => [(k, [v])]
  | (k', vs) :: rest =>
    if k' = k then (k', vs ++ [v]) :: rest else (k', vs) :: apush rest k v

/-- Two-level `defaultdict(lambda: defaultdict(list))` append:
`d[k1][k2].append(v)`. -/
def apush2 {β : Type} (l : List (String × List (String × List β)))
    (k1 k2 : String) (v : β) : List (String × List (String × List β)) :=
  match l with
  | [] => [(k1, [(k2, [v])])]
  | (k', inner) :: rest =>
    if k' = k1 then (k', apush inner k2 v) :: rest
    else (k', inner) :: apush2 rest k1 k2 v

/-- The analytics-event payload (`AnalyticsEvent.data`).  The source keeps
a free-form kwargs dict; only these four keys are ever read, so the bag is
modelled as four optional typed fields, `none` meaning the key is absent
(a missing required key raises `KeyError` in the source). -/
structure EventData where
  story_id : Option String
  mood_score : Option ℚ
  theme : Option String
  position : Option ℚ
deriving DecidableEq, Repr

/-- `AnalyticsEvent`: user id, event type tag, timestamp (seconds), and
payload. -/
structure AnalyticsEvent where
  user_id : String
  event_type : String
  timestamp : ℚ
  data : EventData
deriving DecidableEq, Repr

/-- `StoryTransition`.  `tid` models Python object identity (see the file
header); the remaining fields are the object's real fields.  `MoodScore`
wrappers are collapsed to their rational value. -/
structure StoryTransition where
  tid : ℕ
  from_story_id : String
  to_story_id : String
  user_id : String
  timestamp : ℚ
  mood_before : Option ℚ
  mood_after : Option ℚ
  time_between_minutes : ℚ
  mood_delta : Option ℚ
deriving DecidableEq, Repr

/-- The real (Python-visible) fields of a `StoryTransition`, used to
compare transitions across states without the modelling artifact `tid`. -/
structure TransitionData where
  from_story_id : String
  to_story_id : String
  user_id : String
  timestamp : ℚ
  mood_before : Option ℚ
  mood_after : Option ℚ
  time_between_minutes : ℚ
  mood_delta : Option ℚ
deriving DecidableEq, Repr

/-- Projection erasing the artificial identity `tid`. -/
def StoryTransition.toData (t : StoryTransition) : TransitionData :=
  { from_story_id := t.from_story_id
    to_story_id := t.to_story_id
    user_id := t.user_id
    timestamp := t.timestamp
    mood_before := t.mood_before
    mood_after := t.mood_after
    time_between_minutes := t.time_between_minutes
    mood_delta := t.mood_delta }

/-- `StoryTransition.__init__`: `mood_delta` is computed from the two mood
scores when both are present (`MoodScore` objects are always truthy). -/
def mkTransition (tid : ℕ) (fromId toId uid : String) (ts : ℚ)
    (mb ma : Option ℚ) (tbm : ℚ) : StoryTransition :=
  { tid := tid
    from_story_id := fromId
    to_story_id := toId
    user_id := uid
    timestamp := ts
    mood_before := mb
    mood_after := ma
    time_between_minutes := tbm
    mood_delta :=
      match mb, ma with
      | some b, some a => some (a - b)
      | _, _ => none }

/-- `Story`.  Catalog fields plus the derived mutable statistics; the
decayed statistics are real numbers (products with `0.5 ** x`).
`mood_associations` entries are `(mood_before, mood_after, timestamp)`. -/
structure Story where
  id : String
  title : String
  theme : String
  tags : List String
  mood_associations : List (ℚ × ℚ × ℚ)
  avg_mood_change : Option ℝ
  mood_effectiveness : List (String × ℝ)
  best_next_stories : List (String × ℝ)
  best_next_themes : List (String × ℝ)

/-- `Story.__init__` (fresh catalog entry, empty statistics;
`tags or []` collapses to the given list). -/
def mkStory (sid title theme : String) (tags : List String) : Story :=
  { id := sid, title := title, theme := theme, tags := tags
    mood_associations := [], avg_mood_change := none
    mood_effectiveness := [], best_next_stories := [], best_next_themes := [] }

/-- `UserProfile`.  `mood_history` entries are `(timestamp, mood)`;
`theme_interactions` maps theme to `(weight, timestamp)` samples;
`preferred_transitions` maps a from-story id to
`(to_story_id, mood_delta-or-none, timestamp)` tuples;
`theme_transition_preferences` maps from-theme to to-theme to
`(mood_delta, timestamp)` samples.  `mood_volatility_sq` stores the
square of the source's `_mood_volatility` (`np.std` returns the square
root of this rational; every use in the engine is an order comparison
against a nonnegative constant, which squaring preserves). -/
structure UserProfile where
  user_id : String
  viewed_stories : List (String × ℚ)
  completed_stories : List (String × ℚ)
  favorited_stories : List (String × ℚ)
  theme_interactions : List (String × List (ℚ × ℚ))
  mood_history : List (ℚ × ℚ)
  current_mood : Option ℚ
  story_mood_impact : List (String × (ℚ × ℚ))
  recent_story_views : List (ℚ × String)
  recommendation_mix : ℚ
  mood_trend : Option String
  mood_volatility_sq : Option ℚ
  story_sequences : List StoryTransition
  preferred_transitions : List (String × List (String × Option ℚ × ℚ))
  theme_transition_preferences :
    List (String × List (String × List (ℚ × ℚ)))
  last_completed_story : Option String
  last_completed_timestamp : Option ℚ
deriving DecidableEq, Repr

/-- `UserProfile.__init__`. -/
def emptyProfile (uid : String) : UserProfile :=
  { user_id := uid
    viewed_stories := [], completed_stories := [], favorited_stories := []
    theme_interactions := [], mood_history := [], current_mood := none
    story_mood_impact := [], recent_story_views := []
    recommendation_mix := 0.5
    mood_trend := none, mood_volatility_sq := none
    story_sequences := [], preferred_transitions := []
    theme_transition_preferences := []
    last_completed_story := none, last_completed_timestamp := none }

/-- `StoryRecommender` state.  `next_tid` is the fresh-identity counter
for the `tid` modelling artifact.  The memoized pairwise similarity cache
is modelled away: `_story_similarity` is a pure function of the catalog
and the cache is pure memoization of it (invalidated on catalog change),
so it is observationally absent. -/
structure Engine where
  stories : List (String × Story)
  users : List (String × UserProfile)
  events : List AnalyticsEvent
  event_half_life_days : ℚ
  mood_half_life_days : ℚ
  transition_window_minutes : ℚ
  story_transitions : List StoryTransition
  global_transition_graph :
    List (String × List (String × List StoryTransition))
  theme_to_stories : List (String × List String)
  next_tid : ℕ

/-- `StoryRecommender.__init__` with the default configuration
(`event_half_life_days=30`, `mood_half_life_days=14`,
`transition_window_minutes=1440`). -/
def emptyEngine : Engine :=
  { stories := [], users := [], events := []
    event_half_life_days := 30, mood_half_life_days := 14
    transition_window_minutes := 1440
    story_transitions := [], global_transition_graph := []
    theme_to_stories := [], next_tid := 0 }

/-- `add_story`: idempotent upsert into the catalog (a fresh `Story`
object replaces any previous one) plus an unconditional append to the
theme index; clears the similarity cache (modelled away). -/
def addStory (e : Engine) (sid title theme : String) (tags : List String) :
    Engine :=
  { e with
    stories := aupsert e.stories sid (mkStory sid title theme tags)
    theme_to_stories := apush e.theme_to_stories theme sid }

/-- The half-life decay factor `0.5 ** (days_ago / half_life_days)`. -/
noncomputable def decayFactor (daysAgo halfLifeDays : ℚ) : ℝ :=
  (0.5 : ℝ) ^ (((daysAgo / halfLifeDays : ℚ) : ℝ))

/-- `np.mean` over a list of reals (`sum / len`; all source call sites
guard non-emptiness). -/
noncomputable def floatMean (l : List ℝ) : ℝ := l.sum / l.length

/-- Python `max(list)` over a nonempty list of reals. -/
noncomputable def floatMax (l : List ℝ) : ℝ := l.foldl max (l.headD 0)

/-- Last `n` elements of a list (Python `l[-n:]`). -/
def lastN {α : Type} (l : List α) (n : ℕ) : List α := l.drop (l.length - n)

/-- Slope of the degree-1 least-squares fit of `ys` against the sample
indices `0, 1, ...` — the closed normal-equation form of
`np.polyfit(np.arange(len(ys)), ys, 1)[0]` (the polyfit minimizer is
unique for ≥ 2 distinct sample points and equals this formula). -/
def lsqSlope (ys : List ℚ) : ℚ :=
  let n : ℚ := ys.length
  let xs : List ℚ := (List.range ys.length).map (fun i => (i : ℚ))
  let sx := xs.sum
  let sy := ys.sum
  let sxy := ((xs.zip ys).map (fun p => p.1 * p.2)).sum
  let sxx := (xs.map (fun x => x * x)).sum
  (n * sxy - sx * sy) / (n * sxx - sx * sx)

/-- Population variance `sum((y - mean)^2) / n`: the square of
`np.std(ys)` (numpy's default `ddof=0`). -/
def popVariance (ys : List ℚ) : ℚ :=
  let n : ℚ := ys.length
  let mean := ys.sum / n
  ((ys.map (fun y => (y - mean) ^ 2)).sum) / n

/-- Modelled from the spec: the Bessel-corrected *sample* variance
`sum((y - mean)^2) / (n - 1)` — the square of the "sample standard
deviation" named by the spec's mood-volatility sentence.  Used only to
compare the spec's words against the source's `np.std`. -/
def sampleVarianceSpec (ys : List ℚ) : ℚ :=
  let n : ℚ := ys.length
  let mean := ys.sum / n
  ((ys.map (fun y => (y - mean) ^ 2)).sum) / (n - 1)

/-- `UserProfile.update_mood_trajectory`: fewer than 3 history entries
gives trend `"stable"` and volatility 0; otherwise a least-squares slope
over the last 10 mood values classifies the trend and `np.std` of those
values (stored squared, see `UserProfile`) is the volatility. -/
def updateMoodTrajectory (u : UserProfile) : UserProfile :=
  if u.mood_history.length < 3 then
    { u with mood_trend := some "stable", mood_volatility_sq := some 0 }
  else
    let vals := (lastN u.mood_history 10).map (fun p => p.2)
    let slope := lsqSlope vals
    let trend :=
      if slope > 0.2 then "improving"
      else if slope < -0.2 then "declining"
      else "stable"
    { u with mood_trend := some trend
             mood_volatility_sq := some (popVariance vals) }

/-- `UserProfile.get_recent_story_path`: the ids of the last `n`
completions, after a stable ascending sort of `completed_stories` by
timestamp. -/
def getRecentStoryPath (u : UserProfile) (n : ℕ) : List String :=
  let sortedC := u.completed_stories.mergeSort
    (fun a b => decide (a.2 ≤ b.2))
  (lastN sortedC n).map (fun p => p.1)

/-- The five mood-before buckets of `_calculate_mood_effectiveness`, in
the source's (insertion) iteration order, each as
`(name, low, high)` with membership test `low ≤ v < high`. -/
def moodRanges : List (String × ℚ × ℚ) :=
  [("very_low", 1, 3), ("low", 3, 5), ("medium", 5, 7),
   ("high", 7, 9), ("very_high", 9, 10)]

/-- The bucket-assignment loop of `_calculate_mood_effectiveness`: the
first range (in `moodRanges` order) with `low ≤ v < high`, the `break`
making later matches irrelevant; `none` when no range matches. -/
def firstMatchingRange (v : ℚ) : Option (String × ℚ × ℚ) :=
  moodRanges.find? (fun r => decide (r.2.1 ≤ v ∧ v < r.2.2))

/-- `_get_mood_range` (used by scoring; note its final `else` branch
includes every value ≥ 9, unlike `moodRanges`). -/
def getMoodRange (v : ℚ) : String :=
  if v < 3 then "very_low"
  else if v < 5 then "low"
  else if v < 7 then "medium"
  else if v < 9 then "high"
  else "very_high"

/-- Rebuild of the global transition graph from the global transition
list (the `load_state` loop; also the invariant shape the live graph
maintains by appending at creation). -/
def graphPush (g : List (String × List (String × List StoryTransition)))
    (t : StoryTransition) :
    List (String × List (String × List StoryTransition)) :=
  apush2 g t.from_story_id t.to_story_id t

/-- `load_state`'s global-graph reconstruction:
`graph[t.from][t.to].append(t)` over the transition list in order. -/
def rebuildGraph (ts : List StoryTransition) :
    List (String × List (String × List StoryTransition)) :=
  ts.foldl graphPush []

/-- `load_state`'s per-user `preferred_transitions` reconstruction from
the loaded `story_sequences`. -/
def rebuildPreferred (seqs : List StoryTransition) :
    List (String × List (String × Option ℚ × ℚ)) :=
  seqs.foldl
    (fun m t => apush m t.from_story_id (t.to_story_id, t.mood_delta, t.timestamp))
    []

/-- `load_state`'s per-user `theme_transition_preferences` reconstruction:
a `(delta, timestamp)` sample per transition whose two endpoint stories
are in the catalog and whose delta is non-null. -/
def rebuildTheme (stories : List (String × Story))
    (seqs : List StoryTransition) :
    List (String × List (String × List (ℚ × ℚ))) :=
  seqs.foldl
    (fun m t =>
      match alook stories t.from_story_id, alook stories t.to_story_id with
      | some fs, some tos =>
        match t.mood_delta with
        | some d => apush2 m fs.theme tos.theme (d, t.timestamp)
        | none => m
      | _, _ => m)
    []

/-- `_calculate_mood_effectiveness`: bucket every association by its
mood-before value (first matching range, the `break` ending the inner
loop), weight the improvement by decay — note the implicit
`datetime.now()` read, modelled by the explicit `wallClock` — and write
the per-bucket `np.mean` into the story's existing `mood_effectiveness`
dict (old buckets with no new samples persist). -/
noncomputable def calculateMoodEffectiveness (moodHalfLife wallClock : ℚ)
    (st : Story) : Story :=
  if st.mood_associations = [] then st
  else
    let rangeImprovements : List (String × List ℝ) :=
      st.mood_associations.foldl
        (fun acc a =>
          match firstMatchingRange a.1 with
          | some r =>
            apush acc r.1
              (((a.2.1 - a.1 : ℚ) : ℝ) *
                decayFactor ((wallClock - a.2.2) / 86400) moodHalfLife)
          | none => acc)
        []
    let eff :=
      rangeImprovements.foldl
        (fun m p => if p.2 = [] then m else aupsert m p.1 (floatMean p.2))
        st.mood_effectiveness
    { st with mood_effectiveness := eff }

/-- `_update_story_mood_stats`: decayed weighted mean of the mood
improvements over all associations (implicit `datetime.now()`, modelled
by `wallClock`), then the bucketed effectiveness recompute.  The source
indexes `self.stories[story_id]` unguarded but every call site has just
checked membership; an absent id is a no-op here. -/
noncomputable def updateStoryMoodStats (e : Engine) (wallClock : ℚ)
    (sid : String) : Engine :=
  match alook e.stories sid with
  | none => e
  | some st =>
    if st.mood_associations = [] then e
    else
      let decays := st.mood_associations.map
        (fun a => decayFactor ((wallClock - a.2.2) / 86400) e.mood_half_life_days)
      let weighted := st.mood_associations.map
        (fun a => ((a.2.1 - a.1 : ℚ) : ℝ) *
          decayFactor ((wallClock - a.2.2) / 86400) e.mood_half_life_days)
      let totalWeight := decays.sum
      let newAvg :=
        if 0 < totalWeight then some (weighted.sum / totalWeight)
        else st.avg_mood_change
      let st1 := { st with avg_mood_change := newAvg }
      let st2 := calculateMoodEffectiveness e.mood_half_life_days wallClock st1
      { e with stories := aupdate e.stories sid (fun _ => st2) }

/-- `_update_story_transition_stats`: regroup every global transition out
of `fromId` by destination story and destination theme, decay each
non-null delta by `mood_half_life_days` against the implicit
`datetime.now()` (modelled by `wallClock`), and overwrite the origin
story's two "best next" tables with the per-group `np.mean`s (the
`defaultdict` graph access is modelled by a defaulting lookup; at every
reachable call the key exists). -/
noncomputable def updateStoryTransitionStats (e : Engine) (wallClock : ℚ)
    (fromId : String) : Engine :=
  match alook e.stories fromId with
  | none => e
  | some _ =>
    let transitions := (alook e.global_transition_graph fromId).getD []
    let step := fun (acc : List (String × List ℝ) × List (String × List ℝ))
        (pr : String × List StoryTransition) =>
      pr.2.foldl
        (fun acc2 t =>
          match t.mood_delta with
          | none => acc2
          | some d =>
            let wd := ((d : ℚ) : ℝ) *
              decayFactor ((wallClock - t.timestamp) / 86400) e.mood_half_life_days
            let acc3 := (apush acc2.1 pr.1 wd, acc2.2)
            match alook e.stories pr.1 with
            | some toSt => (acc3.1, apush acc3.2 toSt.theme wd)
            | none => acc3)
        acc
    let effects := transitions.foldl step ([], [])
    let bns := (effects.1.filter (fun p => decide (p.2 ≠ []))).map
      (fun p => (p.1, floatMean p.2))
    let bnt := (effects.2.filter (fun p => decide (p.2 ≠ []))).map
      (fun p => (p.1, floatMean p.2))
    let setStats := fun (st : Story) =>
      { st with best_next_stories := bns, best_next_themes := bnt }
    { e with stories := aupdate e.stories fromId setStats }

/-- `_record_story_transition`: mood-before is the most recent mood
history entry at or before the prior completion's timestamp, mood-after
is the user's `current_mood` at creation ("if recently recorded"), the
transition is appended to the user's sequence list, the user's preferred
index, the (conditional) theme index, the global list and the global
graph, and the origin story's "best next" stats are recomputed. -/
noncomputable def recordStoryTransition (e : Engine) (wallClock : ℚ)
    (u : UserProfile) (fromId toId : String) (ts tbm : ℚ) :
    UserProfile × Engine :=
  let moodBefore : Option ℚ :=
    match u.last_completed_timestamp with
    | some lct =>
      ((u.mood_history.reverse).find? (fun p => decide (p.1 ≤ lct))).map
        (fun p => p.2)
    | none => none
  let moodAfter := u.current_mood
  let t := mkTransition e.next_tid fromId toId u.user_id ts moodBefore moodAfter tbm
  let u1 :=
    { u with
      story_sequences := u.story_sequences ++ [t]
      preferred_transitions :=
        apush u.preferred_transitions fromId (toId, t.mood_delta, ts) }
  let u2 :=
    match alook e.stories fromId, alook e.stories toId with
    | some fs, some tos =>
      match t.mood_delta with
      | some d =>
        let tp := apush2 u1.theme_transition_preferences fs.theme tos.theme (d, ts)
        { u1 with theme_transition_preferences := tp }
      | none => u1
    | _, _ => u1
  let e1 :=
    { e with
      story_transitions := e.story_transitions ++ [t]
      global_transition_graph := graphPush e.global_transition_graph t
      next_tid := e.next_tid + 1 }
  (u2, updateStoryTransitionStats e1 wallClock fromId)

/-- In-place patch of the shared transition object identified by `k`
(see the file header): set `mood_after` and, when `nd` is given, also
`mood_delta`. -/
def patchT (k : ℕ) (ma : ℚ) (nd : Option ℚ) (t : StoryTransition) :
    StoryTransition :=
  if t.tid = k then
    { t with mood_after := some ma
             mood_delta := match nd with | some d => some d | none => t.mood_delta }
  else t

/-- Map a transition patch over the nested global graph (the Python
objects are shared, so mutating one mutates its graph entry). -/
def gmap (f : StoryTransition → StoryTransition)
    (g : List (String × List (String × List StoryTransition))) :
    List (String × List (String × List StoryTransition)) :=
  g.map (fun p => (p.1, p.2.map (fun q => (q.1, q.2.map f))))

/-- The in-place tuple replacement inside
`_update_recent_transition_mood`: the first `preferred_transitions[from]`
entry matching `(to_id == sid, delta is None, ts == timestamp)` gets its
delta filled. -/
def replaceFirstMatch (l : List (String × Option ℚ × ℚ)) (sid : String)
    (d : ℚ) (ts : ℚ) : List (String × Option ℚ × ℚ) :=
  match l with
  | [] => []
  | x :: rest =>
    if x.1 = sid ∧ x.2.1 = none ∧ x.2.2 = ts then (x.1, some d, x.2.2) :: rest
    else x :: replaceFirstMatch rest sid d ts

/-- `_update_recent_transition_mood`: patch the user's most recent
transition with the event's mood-after only when its `to_story_id`
matches and its `mood_after` is still null; when a `mood_before` exists
the delta is also computed, the preferred-transitions tuple updated and
the origin's stats recomputed.  The shared object is patched in the
user's sequence list, the global list and the graph via its `tid`. -/
noncomputable def updateRecentTransitionMood (e : Engine) (wallClock : ℚ)
    (u : UserProfile) (sid : String) (m : ℚ) : UserProfile × Engine :=
  match u.story_sequences.getLast? with
  | none => (u, e)
  | some lastT =>
    if lastT.to_story_id = sid ∧ lastT.mood_after = none then
      match lastT.mood_before with
      | some mb =>
        let d := m - mb
        let f := patchT lastT.tid m (some d)
        let u1 :=
          { u with
            story_sequences := u.story_sequences.map f
            preferred_transitions :=
              aupdate u.preferred_transitions lastT.from_story_id
                (fun l => replaceFirstMatch l sid d lastT.timestamp) }
        let e1 :=
          { e with
            story_transitions := e.story_transitions.map f
            global_transition_graph := gmap f e.global_transition_graph }
        (u1, updateStoryTransitionStats e1 wallClock lastT.from_story_id)
      | none =>
        let f := patchT lastT.tid m none
        let u1 := { u with story_sequences := u.story_sequences.map f }
        let e1 :=
          { e with
            story_transitions := e.story_transitions.map f
            global_transition_graph := gmap f e.global_transition_graph }
        (u1, e1)
    else (u, e)

/-- Write a (mutated) user object back into the users map. -/
def writeUser (e : Engine) (uid : String) (u : UserProfile) : Engine :=
  { e with users := aupsert e.users uid u }

/-- The state every `add_event` call reaches before dispatching: event
appended to the log, profile created for an unseen user.  A rejected
event leaves exactly this state behind. -/
def ingestBase (e : Engine) (ev : AnalyticsEvent) : Engine :=
  let e0 := { e with events := e.events ++ [ev] }
  if (alook e0.users ev.user_id).isNone then
    { e0 with users := e0.users ++ [(ev.user_id, emptyProfile ev.user_id)] }
  else e0

/-- `add_event`.  The event is appended to the log and the profile
created *before* the type dispatch, so both survive a rejected event.
The returned flag is `true` when the source would raise `KeyError` on a
missing required payload key (leaving the event appended and the profile
created, the partial mutation Python keeps on an exception); unknown
event types fall through with no further effect and no exception.
Python truthiness: `user.last_completed_story` is falsy when `None` or
the empty string; timestamps and `MoodScore` objects are always truthy. -/
noncomputable def addEvent (e : Engine) (wallClock : ℚ)
    (ev : AnalyticsEvent) : Engine × Bool :=
  let e1 := ingestBase e ev
  let u := (alook e1.users ev.user_id).getD (emptyProfile ev.user_id)
  match ev.event_type with
  | "view" =>
    match ev.data.story_id with
    | none => (e1, true)
    | some sid =>
      let u1 :=
        { u with
          viewed_stories := aupsert u.viewed_stories sid ev.timestamp
          recent_story_views := u.recent_story_views ++ [(ev.timestamp, sid)] }
      let u2 :=
        match alook e1.stories sid with
        | some st =>
          let ti := apush u1.theme_interactions st.theme (0.1, ev.timestamp)
          { u1 with theme_interactions := ti }
        | none => u1
      (writeUser e1 ev.user_id u2, false)
  | "complete" =>
    match ev.data.story_id with
    | none => (e1, true)
    | some sid =>
      let u1 :=
        { u with completed_stories := aupsert u.completed_stories sid ev.timestamp }
      let u2 :=
        match alook e1.stories sid with
        | some st =>
          let ti := apush u1.theme_interactions st.theme (1, ev.timestamp)
          { u1 with theme_interactions := ti }
        | none => u1
      let step :=
        match u2.last_completed_story, u2.last_completed_timestamp with
        | some fid, some lct =>
          if fid ≠ "" then
            let timeDiff := (ev.timestamp - lct) / 60
            if timeDiff ≤ e1.transition_window_minutes then
              recordStoryTransition e1 wallClock u2 fid sid ev.timestamp timeDiff
            else (u2, e1)
          else (u2, e1)
        | _, _ => (u2, e1)
      let u3 :=
        { step.1 with
          last_completed_story := some sid
          last_completed_timestamp := some ev.timestamp }
      (writeUser step.2 ev.user_id u3, false)
  | "mood_after" =>
    match ev.data.story_id with
    | none => (e1, true)
    | some sid =>
      match ev.data.mood_score with
      | none => (e1, true)
      | some m =>
        let step :=
          match u.current_mood with
          | some cm =>
            let moodChange := m - cm
            let smi := aupsert u.story_mood_impact sid (moodChange, ev.timestamp)
            let ua := { u with story_mood_impact := smi }
            let inner :=
              match alook e1.stories sid with
              | some st =>
                let appendAssoc := fun (s : Story) =>
                  let ma := s.mood_associations ++ [(cm, m, ev.timestamp)]
                  { s with mood_associations := ma }
                let eb := { e1 with stories := aupdate e1.stories sid appendAssoc }
                let ec := updateStoryMoodStats eb wallClock sid
                let ti := apush ua.theme_interactions st.theme
                  (moodChange * 0.5, ev.timestamp)
                let ub := { ua with theme_interactions := ti }
                (ub, ec)
              | none => (ua, e1)
            updateRecentTransitionMood inner.2 wallClock inner.1 sid m
          | none => (u, e1)
        let u2 :=
          { step.1 with
            current_mood := some m
            mood_history := step.1.mood_history ++ [(ev.timestamp, m)] }
        (writeUser step.2 ev.user_id (updateMoodTrajectory u2), false)
  | "favorite" =>
    match ev.data.story_id with
    | none => (e1, true)
    | some sid =>
      let u1 :=
        { u with favorited_stories := aupsert u.favorited_stories sid ev.timestamp }
      let u2 :=
        match alook e1.stories sid with
        | some st =>
          let ti := apush u1.theme_interactions st.theme (2, ev.timestamp)
          { u1 with theme_interactions := ti }
        | none => u1
      (writeUser e1 ev.user_id u2, false)
  | "mood_general" =>
    match ev.data.mood_score with
    | none => (e1, true)
    | some m =>
      let u1 :=
        { u with
          current_mood := some m
          mood_history := u.mood_history ++ [(ev.timestamp, m)] }
      (writeUser e1 ev.user_id (updateMoodTrajectory u1), false)
  | "search" =>
    match ev.data.theme with
    | some th =>
      let ti := apush u.theme_interactions th (0.5, ev.timestamp)
      (writeUser e1 ev.user_id { u with theme_interactions := ti }, false)
    | none => (e1, false)
  | "slider_position" =>
    match ev.data.position with
    | none => (e1, true)
    | some p =>
      (writeUser e1 ev.user_id
        { u with recommendation_mix := max 0 (min 1 p) }, false)
  | _ => (e1, false)

/-- Run a list of (wall-clock, event) pairs through `add_event`,
keeping the partially mutated state of a rejected event just as the
Python object would. -/
noncomputable def runEvents (e : Engine) (evs : List (ℚ × AnalyticsEvent)) :
    Engine :=
  evs.foldl (fun acc p => (addEvent acc p.1 p.2).1) e

/-- Python truthiness of an optional string (`None` and `""` are falsy):
used for `if user.last_completed_story:` guards. -/
def strOptTruthy (o : Option String) : Bool :=
  match o with
  | some s => decide (s ≠ "")
  | none => false

/-- The optional context of `get_recommendations`: a present key of the
Python context dict is a `some` here. -/
structure Context where
  current_time : Option ℚ
  current_mood : Option ℚ
  promotional_tags : Option (List String)

/-- A context with no keys. -/
def emptyContext : Context :=
  { current_time := none, current_mood := none, promotional_tags := none }

/-- `UserProfile._get_decayed_theme_scores`: per theme, the sum of
interaction weights decayed against the given clock with the given
half-life. -/
noncomputable def decayedThemeScores (u : UserProfile) (now halfLife : ℚ) :
    List (String × ℝ) :=
  u.theme_interactions.map
    (fun p =>
      (p.1,
        (p.2.map (fun q => ((q.1 : ℚ) : ℝ) *
          decayFactor ((now - q.2) / 86400) halfLife)).sum))

/-- `UserProfile.get_avoided_themes` as scoring calls it: default
threshold `-1.0` and — note — the *default* half-life of 30 days, not the
engine's configured `event_half_life_days`. -/
noncomputable def getAvoidedThemes (u : UserProfile) (now : ℚ) :
    List String :=
  ((decayedThemeScores u now 30).filter (fun p => decide (p.2 < -1))).map
    (fun p => p.1)

/-- `_story_similarity` as a pure function of the catalog (the memo cache
is pure memoization of this value, modelled away): identical ids give 1.0
outright; otherwise 0.5 for a theme match plus 0.5 times the tag-set
Jaccard overlap, the tag term skipped when either tag list is empty
(Python `if story1.tags and story2.tags`), and 0.0 when either id is not
in the catalog. -/
def storySimilarity (stories : List (String × Story)) (id1 id2 : String) :
    ℚ :=
  if id1 = id2 then 1
  else
    match alook stories id1, alook stories id2 with
    | some s1, some s2 =>
      let base : ℚ := if s1.theme = s2.theme then 0.5 else 0
      if s1.tags ≠ [] ∧ s2.tags ≠ [] then
        let t1 := s1.tags.dedup
        let t2 := s2.tags.dedup
        let inter := (t1.filter (fun x => decide (x ∈ t2))).length
        let uni := (t1 ++ t2.filter (fun x => decide (x ∉ t1))).length
        if uni > 0 then base + 0.5 * ((inter : ℚ) / (uni : ℚ)) else base
      else base
    | _, _ => 0

/-- Python `{**d1, **d2}`: `d2`'s entries override `d1`'s, overridden
keys keeping `d1`'s position and fresh keys appended. -/
def mergeDicts {β : Type} (d1 d2 : List (String × β)) : List (String × β) :=
  d2.foldl (fun acc p => aupsert acc p.1 p.2) d1

/-- `_sophisticated_mood_match`: bucket effectiveness for the current
mood's range, decayed mood-similarity matching over the story's
associations, trend alignment, and the volatility bonus (the source's
`_mood_volatility > 1.5` is the stored square `> 2.25`; `np.std` is
nonnegative so squaring preserves the comparison). -/
noncomputable def sophisticatedMoodMatch (e : Engine) (u : UserProfile)
    (st : Story) (now : ℚ) : ℝ :=
  match u.current_mood with
  | none => 0
  | some cm =>
    if st.mood_associations = [] then 0
    else
      let s1 : ℝ :=
        match alook st.mood_effectiveness (getMoodRange cm) with
        | some eff => ((eff + 5) / 10) * 3
        | none => 0
      let pairs : List (ℝ × ℝ) :=
        st.mood_associations.map
          (fun a =>
            let sim : ℝ := 1 - ((|cm - a.1| : ℚ) : ℝ) / 9
            let d := decayFactor ((now - a.2.2) / 86400) e.mood_half_life_days
            let imp : ℝ := ((a.2.1 - a.1 : ℚ) : ℝ)
            ((sim * (1 + imp / 5)) * d, d))
      let msum := (pairs.map (fun p => p.1)).sum
      let tw := (pairs.map (fun p => p.2)).sum
      let s2 : ℝ := if pairs ≠ [] ∧ 0 < tw then (msum / tw) * 2 else 0
      let s3 : ℝ :=
        match u.mood_trend, st.avg_mood_change with
        | some tr, some ac =>
          if tr ≠ "" then
            if tr = "declining" ∧ 0 < ac then ac * 2
            else if tr = "improving" ∧ 0 < ac then ac * 1.5
            else if tr = "stable" then ((ac + 5) / 10) * 1
            else 0
          else 0
        | _, _ => 0
      let s4 : ℝ :=
        match u.mood_volatility_sq, st.avg_mood_change with
        | some vsq, some ac => if vsq > 2.25 ∧ ac > 1 then 1 else 0
        | _, _ => 0
      s1 + s2 + s3 + s4

/-- `_evaluate_path_continuation`: decayed deltas of other users who
followed the same recent path and whose next transition targeted the
candidate. -/
noncomputable def evaluatePathContinuation (e : Engine) (path : List String)
    (candidateId : String) (now : ℚ) : ℝ :=
  if path.length < 2 then 0
  else
    let matching : List ℝ :=
      e.users.foldl
        (fun acc p =>
          let usr := p.2
          let up := getRecentStoryPath usr (path.length + 1)
          if up.length ≥ path.length + 1 ∧ up.dropLast = path then
            let nextStory := (up.getLast?).getD ""
            match path.getLast? with
            | some lastId =>
              match alook usr.preferred_transitions lastId with
              | some pts =>
                acc ++ ((pts.filter (fun q =>
                    decide (q.1 = nextStory ∧ q.2.1 ≠ none ∧ q.1 = candidateId))).map
                  (fun q => (((q.2.1.getD 0 : ℚ)) : ℝ) *
                    decayFactor ((now - q.2.2) / 86400) e.mood_half_life_days))
              | none => acc
            | none => acc
          else acc)
        []
    if matching ≠ [] then ((floatMean matching + 5) / 10) * 2 else 0

/-- `_sequence_based_score`: personal transition history, global
best-next effect, personal and global theme-transition averages, the
path-continuation bonus, and the under-an-hour recency multiplier. -/
noncomputable def sequenceBasedScore (e : Engine) (u : UserProfile)
    (candidate : Story) (now : ℚ) : ℝ :=
  match u.last_completed_story with
  | none => 0
  | some lid =>
    if lid = "" then 0
    else
      match alook e.stories lid with
      | none => 0
      | some lastStory =>
        let p1 : ℝ :=
          match alook u.preferred_transitions lid with
          | some pts =>
            ((pts.filter (fun q => decide (q.1 = candidate.id ∧ q.2.1 ≠ none))).map
              (fun q =>
                ((((q.2.1.getD 0 : ℚ) + 5) / 10 : ℚ) : ℝ) * 3 *
                  decayFactor ((now - q.2.2) / 86400) e.mood_half_life_days)).sum
          | none => 0
        let p2 : ℝ :=
          match alook lastStory.best_next_stories candidate.id with
          | some avgEffect => ((avgEffect + 5) / 10) * 2.5
          | none => 0
        let p3 : ℝ :=
          match alook u.theme_transition_preferences lastStory.theme with
          | some inner =>
            match alook inner candidate.theme with
            | some deltas =>
              let wd := deltas.map (fun q => ((q.1 : ℚ) : ℝ) *
                decayFactor ((now - q.2) / 86400) e.mood_half_life_days)
              if wd ≠ [] then ((floatMean wd + 5) / 10) * 2 else 0
            | none => 0
          | none => 0
        let p4 : ℝ :=
          match alook lastStory.best_next_themes candidate.theme with
          | some avgEffect => ((avgEffect + 5) / 10) * 1.5
          | none => 0
        let p5 : ℝ :=
          let recentPath := getRecentStoryPath u 2
          if recentPath.length = 2 then
            evaluatePathContinuation e recentPath candidate.id now
          else 0
        let base := p1 + p2 + p3 + p4 + p5
        match u.last_completed_timestamp with
        | some lct =>
          let minutesSince := (now - lct) / 60
          if minutesSince < 60 then
            base * ((1 : ℝ) + ((1 - minutesSince / 60 : ℚ) : ℝ) * 0.5)
          else base
        | none => base

/-- `_collaborative_sequence_score`: decayed mean mood delta other users
experienced transitioning from the user's last-completed story into the
candidate. -/
noncomputable def collaborativeSequenceScore (e : Engine) (u : UserProfile)
    (candidate : Story) (now : ℚ) : ℝ :=
  match u.last_completed_story with
  | none => 0
  | some lid =>
    if lid = "" then 0
    else
      let choices : List ℝ :=
        e.users.foldl
          (fun acc p =>
            if p.2.user_id = u.user_id then acc
            else
              match alook p.2.preferred_transitions lid with
              | some pts =>
                acc ++ ((pts.filter (fun q =>
                    decide (q.1 = candidate.id ∧ q.2.1 ≠ none))).map
                  (fun q => (((q.2.1.getD 0 : ℚ)) : ℝ) *
                    decayFactor ((now - q.2.2) / 86400) e.mood_half_life_days))
              | none => acc)
          []
      if choices ≠ [] then (floatMean choices + 5) / 10 else 0

/-- Decayed liked-set (`{**completed, **favorited}` with per-item decay)
used by collaborative filtering. -/
noncomputable def likedWithDecay (e : Engine) (usr : UserProfile) (now : ℚ) :
    List (String × ℝ) :=
  (mergeDicts usr.completed_stories usr.favorited_stories).map
    (fun p => (p.1, decayFactor ((now - p.2) / 86400) e.event_half_life_days))

/-- `_collaborative_filtering_score`: maximum over other users of the
decayed weighted-Jaccard similarity of liked-sets, scaled by the other
user's decay on the candidate (only for users who liked it). -/
noncomputable def collaborativeFilteringScore (e : Engine) (u : UserProfile)
    (st : Story) (now : ℚ) : ℝ :=
  if u.completed_stories = [] ∧ u.favorited_stories = [] then 0
  else
    let mine := likedWithDecay e u now
    let scores : List ℝ :=
      e.users.foldl
        (fun acc p =>
          if p.1 = u.user_id then acc
          else
            let others := likedWithDecay e p.2 now
            let inter := mine.filter (fun q => (alook others q.1).isSome)
            let unionLen :=
              mine.length + (others.filter (fun q => (alook mine q.1).isNone)).length
            if unionLen = 0 then acc
            else
              let interWeight :=
                (inter.map (fun q => min q.2 ((alook others q.1).getD 0))).sum
              let sim : ℝ :=
                if unionLen > 0 then interWeight / (unionLen : ℝ) else 0
              match alook others st.id with
              | some recencyWeight => acc ++ [sim * recencyWeight]
              | none => acc)
        []
    if scores ≠ [] then floatMax scores else 0

/-- `_popularity_score`: decayed completion weight plus 1.5 × decayed
favorite weight over all users, divided by the user count (at least 1). -/
noncomputable def popularityScore (e : Engine) (st : Story) (now : ℚ) : ℝ :=
  let completion : ℝ :=
    (e.users.map
      (fun p =>
        match alook p.2.completed_stories st.id with
        | some ts => decayFactor ((now - ts) / 86400) e.event_half_life_days
        | none => 0)).sum
  let favorite : ℝ :=
    (e.users.map
      (fun p =>
        match alook p.2.favorited_stories st.id with
        | some ts =>
          decayFactor ((now - ts) / 86400) e.event_half_life_days * 1.5
        | none => 0)).sum
  (completion + favorite) / ((max e.users.length 1 : ℕ) : ℝ)

/-- `_content_based_score`: maximum over the user's completed/favorited
stories (skipping dangling ids) of similarity times decay. -/
noncomputable def contentBasedScore (e : Engine) (u : UserProfile)
    (st : Story) (now : ℚ) : ℝ :=
  let sims : List ℝ :=
    ((mergeDicts u.completed_stories u.favorited_stories).filter
        (fun p => (alook e.stories p.1).isSome)).map
      (fun p => ((storySimilarity e.stories st.id p.1 : ℚ) : ℝ) *
        decayFactor ((now - p.2) / 86400) e.event_half_life_days)
  if sims ≠ [] then floatMax sims else 0

/-- The individual/collaborative blend weights: `ind = 1 - mix`,
`collab = mix`, both floored at 0.2 when `0.1 ≤ mix ≤ 0.9`. -/
def individualWeight (mix : ℚ) : ℚ :=
  if 0.1 ≤ mix ∧ mix ≤ 0.9 then max (1 - mix) 0.2 else 1 - mix

/-- Collaborative counterpart of `individualWeight`. -/
def collaborativeWeight (mix : ℚ) : ℚ :=
  if 0.1 ≤ mix ∧ mix ≤ 0.9 then max mix 0.2 else mix

/-- Signal 1 of `_score_story_for_user` (mood match, individually
weighted, gated on a current mood). -/
noncomputable def moodMatchContribution (e : Engine) (u : UserProfile)
    (st : Story) (now : ℚ) : ℝ :=
  let iw : ℝ := ((individualWeight u.recommendation_mix : ℚ) : ℝ)
  if u.current_mood.isSome then sophisticatedMoodMatch e u st now * iw else 0

/-- Signal 2 (sequence continuation, weight 4, individually weighted,
gated on a truthy last-completed story). -/
noncomputable def sequenceContribution (e : Engine) (u : UserProfile)
    (st : Story) (now : ℚ) : ℝ :=
  let iw : ℝ := ((individualWeight u.recommendation_mix : ℚ) : ℝ)
  if strOptTruthy u.last_completed_story then
    sequenceBasedScore e u st now * 4 * iw
  else 0

/-- Signal 3 (personal mood impact of this story, weight 2.5 × decay,
individually weighted). -/
noncomputable def personalImpactContribution (e : Engine) (u : UserProfile)
    (st : Story) (now : ℚ) : ℝ :=
  let iw : ℝ := ((individualWeight u.recommendation_mix : ℚ) : ℝ)
  match alook u.story_mood_impact st.id with
  | some q =>
    ((((q.1 + 5) / 10 : ℚ)) : ℝ) * 2.5 *
      decayFactor ((now - q.2) / 86400) e.mood_half_life_days * iw
  | none => 0

/-- Signal 4 (theme preference, weight 1.5, individually weighted,
*including* the flat −5.0 avoided-theme penalty the source subtracts
unweighted right after it). -/
noncomputable def themePreferenceContribution (e : Engine) (u : UserProfile)
    (st : Story) (now : ℚ) : ℝ :=
  let iw : ℝ := ((individualWeight u.recommendation_mix : ℚ) : ℝ)
  let themeScore :=
    (alook (decayedThemeScores u now e.event_half_life_days) st.theme).getD 0
  themeScore * 1.5 * iw -
    (if st.theme ∈ getAvoidedThemes u now then 5 else 0)

/-- Signal 5 (content similarity, weight 2, individually weighted). -/
noncomputable def contentContribution (e : Engine) (u : UserProfile)
    (st : Story) (now : ℚ) : ℝ :=
  let iw : ℝ := ((individualWeight u.recommendation_mix : ℚ) : ℝ)
  contentBasedScore e u st now * 2 * iw

/-- Signal 6 (favorites similarity, weight 2, individually weighted). -/
noncomputable def favoritesContribution (e : Engine) (u : UserProfile)
    (st : Story) (now : ℚ) : ℝ :=
  let iw : ℝ := ((individualWeight u.recommendation_mix : ℚ) : ℝ)
  if u.favorited_stories ≠ [] then
    let favScores : List ℝ :=
      (u.favorited_stories.filter (fun p => (alook e.stories p.1).isSome)).map
        (fun p => ((storySimilarity e.stories st.id p.1 : ℚ) : ℝ) *
          decayFactor ((now - p.2) / 86400) e.event_half_life_days)
    if favScores ≠ [] then floatMax favScores * 2 * iw else 0
  else 0

/-- Signal 7 (collaborative filtering, weight 3, collaboratively
weighted). -/
noncomputable def collabFilterContribution (e : Engine) (u : UserProfile)
    (st : Story) (now : ℚ) : ℝ :=
  let cw : ℝ := ((collaborativeWeight u.recommendation_mix : ℚ) : ℝ)
  collaborativeFilteringScore e u st now * 3 * cw

/-- Signal 8 (collaborative sequence, weight 3.5, collaboratively
weighted). -/
noncomputable def collabSequenceContribution (e : Engine) (u : UserProfile)
    (st : Story) (now : ℚ) : ℝ :=
  let cw : ℝ := ((collaborativeWeight u.recommendation_mix : ℚ) : ℝ)
  collaborativeSequenceScore e u st now * 3.5 * cw

/-- Signal 9 (popularity, weight 2, collaboratively weighted). -/
noncomputable def popularityContribution (e : Engine) (u : UserProfile)
    (st : Story) (now : ℚ) : ℝ :=
  let cw : ℝ := ((collaborativeWeight u.recommendation_mix : ℚ) : ℝ)
  popularityScore e st now * 2 * cw

/-- Signal 10 (flat promotional boost, unweighted by the mix). -/
noncomputable def promoContribution (st : Story) (ctx : Context) : ℝ :=
  match ctx.promotional_tags with
  | some promoTags =>
    if st.tags.any (fun tg => promoTags.contains tg) then 1.5 else 0
  | none => 0

/-- Signal 11 (flat novelty boost for never-viewed stories). -/
noncomputable def noveltyContribution (u : UserProfile) (st : Story) : ℝ :=
  if (alook u.viewed_stories st.id).isNone then 0.5 else 0

/-- `_score_story_for_user`: the sum of the 11 signal contributions, in
the source's order. -/
noncomputable def scoreStoryForUser (e : Engine) (u : UserProfile)
    (st : Story) (ctx : Context) (now : ℚ) : ℝ :=
  moodMatchContribution e u st now +
  sequenceContribution e u st now +
  personalImpactContribution e u st now +
  themePreferenceContribution e u st now +
  contentContribution e u st now +
  favoritesContribution e u st now +
  collabFilterContribution e u st now +
  collabSequenceContribution e u st now +
  popularityContribution e u st now +
  promoContribution st ctx +
  noveltyContribution u st

/-- `get_recommendations`: resolves the evaluation clock from the context
(falling back to `datetime.now()`, modelled by `wallClock`), *creates and
stores* a fresh profile for an unseen user id, *overwrites* the stored
`current_mood` when the context carries one, scores every catalog story
not among the user's 10 most recent views, and returns the top `n` by
score (stable descending sort) together with the mutated engine. -/
noncomputable def getRecommendations (wallClock : ℚ) (e : Engine)
    (uid : String) (ctx : Context) (n : ℕ) :
    List (String × ℝ) × Engine :=
  let now := ctx.current_time.getD wallClock
  let e1 :=
    if (alook e.users uid).isNone then
      { e with users := e.users ++ [(uid, emptyProfile uid)] }
    else e
  let u0 := (alook e1.users uid).getD (emptyProfile uid)
  let u :=
    match ctx.current_mood with
    | some m => { u0 with current_mood := some m }
    | none => u0
  let e2 :=
    match ctx.current_mood with
    | some _ => writeUser e1 uid u
    | none => e1
  let recentIds := (lastN u.recent_story_views 10).map (fun p => p.2)
  let scored : List (String × ℝ) :=
    e2.stories.foldl
      (fun acc p =>
        if p.1 ∈ recentIds then acc
        else acc ++ [(p.1, scoreStoryForUser e2 u p.2 ctx now)])
      []
  let sortedScores := scored.mergeSort (fun a b => decide (a.2 ≥ b.2))
  (sortedScores.take n, e2)

/-- The serialized form of a `UserProfile` inside a `save_state`
snapshot (`to_dict` keeps exact values: isoformat timestamps and floats
round-trip losslessly, so serialization is the identity on our rational
model; transitions are serialized without the artificial `tid`). -/
structure SavedUser where
  user_id : String
  viewed_stories : List (String × ℚ)
  completed_stories : List (String × ℚ)
  favorited_stories : List (String × ℚ)
  theme_interactions : List (String × List (ℚ × ℚ))
  mood_history : List (ℚ × ℚ)
  current_mood : Option ℚ
  story_mood_impact : List (String × (ℚ × ℚ))
  recent_story_views : List (ℚ × String)
  recommendation_mix : ℚ
  mood_trend : Option String
  mood_volatility_sq : Option ℚ
  story_sequences : List TransitionData
  last_completed_story : Option String
  last_completed_timestamp : Option ℚ
deriving DecidableEq

/-- A `save_state` snapshot: catalog, users, global transition list, raw
event log, configuration. -/
structure Snapshot where
  stories : List (String × Story)
  users : List (String × SavedUser)
  story_transitions : List TransitionData
  events : List AnalyticsEvent
  event_half_life_days : ℚ
  mood_half_life_days : ℚ
  transition_window_minutes : ℚ

/-- `save_state`. -/
def saveState (e : Engine) : Snapshot :=
  { stories := e.stories
    users := e.users.map
      (fun p =>
        (p.1,
          { user_id := p.2.user_id
            viewed_stories := p.2.viewed_stories
            completed_stories := p.2.completed_stories
            favorited_stories := p.2.favorited_stories
            theme_interactions := p.2.theme_interactions
            mood_history := p.2.mood_history
            current_mood := p.2.current_mood
            story_mood_impact := p.2.story_mood_impact
            recent_story_views := p.2.recent_story_views
            recommendation_mix := p.2.recommendation_mix
            mood_trend := p.2.mood_trend
            mood_volatility_sq := p.2.mood_volatility_sq
            story_sequences := p.2.story_sequences.map StoryTransition.toData
            last_completed_story := p.2.last_completed_story
            last_completed_timestamp := p.2.last_completed_timestamp }))
    story_transitions := e.story_transitions.map StoryTransition.toData
    events := e.events
    event_half_life_days := e.event_half_life_days
    mood_half_life_days := e.mood_half_life_days
    transition_window_minutes := e.transition_window_minutes }

/-- `StoryTransition.from_dict`: the constructor's delta recomputation is
overwritten by the stored `mood_delta`; note the float truthiness of
`if data['mood_before']` / `if data['mood_after']`, which turns a stored
`0.0` mood back into `None`.  `i` is the fresh identity assigned to the
deserialized object. -/
def loadTransition (i : ℕ) (d : TransitionData) : StoryTransition :=
  { tid := i
    from_story_id := d.from_story_id
    to_story_id := d.to_story_id
    user_id := d.user_id
    timestamp := d.timestamp
    mood_before :=
      match d.mood_before with
      | some v => if v = 0 then none else some v
      | none => none
    mood_after :=
      match d.mood_after with
      | some v => if v = 0 then none else some v
      | none => none
    time_between_minutes := d.time_between_minutes
    mood_delta := d.mood_delta }

/-- `load_state`'s per-user reconstruction: deserialized sequence objects
(fresh identities, so the load breaks the pre-save aliasing with the
global list, as in Python), rebuilt `preferred_transitions` and
`theme_transition_preferences`, float truthiness on `current_mood`. -/
def loadUser (stories : List (String × Story)) (firstTid : ℕ)
    (uid : String) (ud : SavedUser) : UserProfile :=
  let seqs := ud.story_sequences.enum.map
    (fun q => loadTransition (firstTid + q.1) q.2)
  { user_id := uid
    viewed_stories := ud.viewed_stories
    completed_stories := ud.completed_stories
    favorited_stories := ud.favorited_stories
    theme_interactions := ud.theme_interactions
    mood_history := ud.mood_history
    current_mood :=
      match ud.current_mood with
      | some v => if v = 0 then none else some v
      | none => none
    story_mood_impact := ud.story_mood_impact
    recent_story_views := ud.recent_story_views
    recommendation_mix := ud.recommendation_mix
    mood_trend := ud.mood_trend
    mood_volatility_sq := ud.mood_volatility_sq
    story_sequences := seqs
    preferred_transitions := rebuildPreferred seqs
    theme_transition_preferences := rebuildTheme stories seqs
    last_completed_story := ud.last_completed_story
    last_completed_timestamp := ud.last_completed_timestamp }

/-- `load_state`: replaces configuration, catalog (with its theme index),
global transitions (rebuilding the graph from the loaded list), users
(rebuilding every per-user index from the loaded sequences), and the
event log.  Fresh identities are dealt to each deserialized transition
object. -/
def loadState (snap : Snapshot) : Engine :=
  let gts := snap.story_transitions.enum.map
    (fun p => loadTransition p.1 p.2)
  let usersAcc :=
    snap.users.foldl
      (fun (acc : List (String × UserProfile) × ℕ) p =>
        (acc.1 ++ [(p.1, loadUser snap.stories acc.2 p.1 p.2)],
          acc.2 + p.2.story_sequences.length))
      ([], gts.length)
  { stories := snap.stories
    users := usersAcc.1
    events := snap.events
    event_half_life_days := snap.event_half_life_days
    mood_half_life_days := snap.mood_half_life_days
    transition_window_minutes := snap.transition_window_minutes
    story_transitions := gts
    global_transition_graph := rebuildGraph gts
    theme_to_stories :=
      snap.stories.foldl (fun m p => apush m p.2.theme p.1) []
    next_tid := usersAcc.2 }

/-- The global transition graph with the artificial `tid`s erased:
the "field for field" view of the graph. -/
def graphData (g : List (String × List (String × List StoryTransition))) :
    List (String × List (String × List TransitionData)) :=
  g.map (fun p => (p.1, p.2.map (fun q => (q.1, q.2.map StoryTransition.toData))))

/-- The derived indices named by the persistence round-trip property: the
global transition graph (tid-erased), and each user's
preferred-transitions and theme-transition indices, in users-map order. -/
def engineIndices (e : Engine) :
    List (String × List (String × List TransitionData)) ×
      List (String × List (String × List (String × Option ℚ × ℚ)) ×
        List (String × List (String × List (ℚ × ℚ)))) :=
  (graphData e.global_transition_graph,
    e.users.map
      (fun p => (p.1, p.2.preferred_transitions, p.2.theme_transition_preferences)))

/-- One catalog or ingestion call, for describing reachable engine
states. -/
inductive Op where
  | story (sid title theme : String) (tags : List String) : Op
  | event (wallClock : ℚ) (ev : AnalyticsEvent) : Op

/-- Apply one operation. -/
noncomputable def applyOp (e : Engine) (op : Op) : Engine :=
  match op with
  | Op.story sid title theme tags => addStory e sid title theme tags
  | Op.event w ev => (addEvent e w ev).1

/-- Run a sequence of operations from the freshly constructed engine. -/
noncomputable def runOps (ops : List Op) : Engine :=
  ops.foldl applyOp emptyEngine

/-- The event types `add_event` dispatches on. -/
def knownEventTypes : List String :=
  ["view", "complete", "mood_after", "favorite", "mood_general", "search",
   "slider_position"]

/-- An event whose payload is missing a required key for its type (the
event-type table of the spec): dereferencing it raises `KeyError` in the
source. -/
def missingRequiredField (ev : AnalyticsEvent) : Prop :=
  (ev.event_type = "view" ∧ ev.data.story_id = none) ∨
  (ev.event_type = "complete" ∧ ev.data.story_id = none) ∨
  (ev.event_type = "favorite" ∧ ev.data.story_id = none) ∨
  (ev.event_type = "mood_after" ∧
    (ev.data.story_id = none ∨ ev.data.mood_score = none)) ∨
  (ev.event_type = "mood_general" ∧ ev.data.mood_score = none) ∨
  (ev.event_type = "slider_position" ∧ ev.data.position = none)

/-- Per-profile core invariant: a user with no current mood has an empty
mood history, and a stored transition with a null mood-after also has a
null mood-before (its creation found no mood-history entry).  This is
what makes the delta branch of `_update_recent_transition_mood` dead
code. -/
def GoodProfile (u : UserProfile) : Prop :=
  (u.current_mood = none → u.mood_history = []) ∧
  (∀ t ∈ u.story_sequences, t.mood_after = none → t.mood_before = none)

/-- Core reachability invariant (holds after any operation sequence, with
no side conditions): every stored profile satisfies `GoodProfile`. -/
def InvCore (e : Engine) : Prop :=
  ∀ p ∈ e.users, GoodProfile p.2

/-- All mood scores in a state are nonzero (guaranteed when every
ingested `mood_score` payload is nonzero, e.g. in the conventional
`[1,10]` range): rules out the float-truthiness loss of a stored `0.0`
mood on reload. -/
def GoodMoods (e : Engine) : Prop :=
  (∀ p ∈ e.users,
    (∀ q ∈ p.2.mood_history, q.2 ≠ (0 : ℚ)) ∧
    (∀ m, p.2.current_mood = some m → m ≠ 0) ∧
    (∀ t ∈ p.2.story_sequences,
      t.mood_before ≠ some 0 ∧ t.mood_after ≠ some 0)) ∧
  (∀ t ∈ e.story_transitions,
    t.mood_before ≠ some 0 ∧ t.mood_after ≠ some 0)

/-- Derived-index invariant: the live global graph and the live per-user
indices coincide with what `load_state` would rebuild from the stored
lists against the current catalog. -/
def IdxInv (e : Engine) : Prop :=
  e.global_transition_graph = rebuildGraph e.story_transitions ∧
  ∀ p ∈ e.users,
    p.2.preferred_transitions = rebuildPreferred p.2.story_sequences ∧
    p.2.theme_transition_preferences =
      rebuildTheme e.stories p.2.story_sequences

/-- Catalog operations (no event ingestion). -/
def Op.isStory : Op → Prop
  | Op.story _ _ _ _ => True
  | Op.event _ _ => False

/-- An operation whose mood-score payload (if any) is nonzero. -/
def Op.goodMood : Op → Prop
  | Op.story _ _ _ _ => True
  | Op.event _ ev => ∀ m, ev.data.mood_score = some m → m ≠ 0

/-- `rebuildGraph` on the tid-erased transition data. -/
def rebuildGraphData (ts : List TransitionData) :
    List (String × List (String × List TransitionData)) :=
  ts.foldl (fun g d => apush2 g d.from_story_id d.to_story_id d) []

/-- `rebuildPreferred` on the tid-erased transition data. -/
def rebuildPreferredData (ts : List TransitionData) :
    List (String × List (String × Option ℚ × ℚ)) :=
  ts.foldl
    (fun m d => apush m d.from_story_id (d.to_story_id, d.mood_delta, d.timestamp))
    []

/-- `rebuildTheme` on the tid-erased transition data. -/
def rebuildThemeData (stories : List (String × Story))
    (ts : List TransitionData) :
    List (String × List (String × List (ℚ × ℚ))) :=
  ts.foldl
    (fun m d =>
      match alook stories d.from_story_id, alook stories d.to_story_id with
      | some fs, some tos =>
        match d.mood_delta with
        | some dl => apush2 m fs.theme tos.theme (dl, d.timestamp)
        | none => m
      | _, _ => m)
    []

/-- What one save/load round trip does to a transition's data: the float
truthiness of `from_dict` turns a stored `0.0` mood into `None`. -/
def reloadData (d : TransitionData) : TransitionData :=
  { d with
    mood_before :=
      match d.mood_before with
      | some v => if v = 0 then none else some v
      | none => none
    mood_after :=
      match d.mood_after with
      | some v => if v = 0 then none else some v
      | none => none }

/-- Event constructor: `mood_general`. -/
def evMG (uid : String) (ts m : ℚ) : AnalyticsEvent :=
  ⟨uid, "mood_general", ts, ⟨none, some m, none, none⟩⟩

/-- Event constructor: `complete`. -/
def evCp (uid sid : String) (ts : ℚ) : AnalyticsEvent :=
  ⟨uid, "complete", ts, ⟨some sid, none, none, none⟩⟩

/-- Event constructor: `mood_after`. -/
def evMA (uid sid : String) (ts m : ℚ) : AnalyticsEvent :=
  ⟨uid, "mood_after", ts, ⟨some sid, some m, none, none⟩⟩

/-- Concrete run: mood 6 reported, story "A" completed at t=600s, story
"B" completed at t=900s (5 minutes later, inside the 1440-minute
window). -/
noncomputable def cexC1Engine : Engine :=
  runEvents emptyEngine
    [(0, evMG "u" 0 6), (0, evCp "u" "A" 600), (0, evCp "u" "B" 900)]

/-- Concrete run of the spec's backfill scenario: mood 6, complete "A",
mood_after 5 for "A", complete "B" 5 minutes after "A", mood_after 7.5
for "B". -/
noncomputable def cexC2Engine : Engine :=
  runEvents emptyEngine
    [(0, evMG "u" 0 6), (0, evCp "u" "A" 600), (0, evMA "u" "A" 660 5),
     (0, evCp "u" "B" 900), (0, evMA "u" "B" 960 7.5)]

/-- A user mid-session: last completed "A" at t=600s with mood 6 recorded
at t=0. -/
def witC1User : UserProfile :=
  { emptyProfile "u" with
    mood_history := [(0, 6)]
    current_mood := some 6
    completed_stories := [("A", 600)]
    last_completed_story := some "A"
    last_completed_timestamp := some 600 }

/-- An engine holding `witC1User`. -/
def witC1Engine : Engine :=
  { emptyEngine with users := [("u", witC1User)] }

/-- Operations where the catalog is loaded first and a transition is
created while story "B" is not yet in the catalog; "B" is added only
afterwards. -/
def cexC3Ops : List Op :=
  [Op.story "A" "tA" "x" [],
   Op.event 0 (evMG "u" 0 6), Op.event 0 (evCp "u" "A" 60),
   Op.event 0 (evCp "u" "B" 120),
   Op.story "B" "tB" "y" []]

/-- The engine of `cexC3Ops`. -/
noncomputable def cexC3Engine : Engine := runOps cexC3Ops

/-- Catalog operations of the round-trip witness. -/
def witC3Sos : List Op :=
  [Op.story "A" "tA" "x" [], Op.story "B" "tB" "y" []]

/-- Event operations of the round-trip witness. -/
def witC3Eos : List Op :=
  [Op.event 0 (evMG "u" 0 6), Op.event 0 (evCp "u" "A" 60),
   Op.event 0 (evCp "u" "B" 120)]

/-- An event of an unknown type. -/
def evBogus : AnalyticsEvent := ⟨"u", "bogus_type", 0, ⟨none, none, none, none⟩⟩

/-- A `slider_position` event missing its required `position` key. -/
def evSliderBad : AnalyticsEvent :=
  ⟨"u", "slider_position", 0, ⟨none, none, none, none⟩⟩

/-- A story of theme "th" with no tags. -/
def stC5 : Story := mkStory "S" "title" "th" []

/-- A pure-collaborative user (`recommendation_mix = 1`) with a strongly
negative interaction history on theme "th" (decayed score −10 at the
evaluation instant, below the −1 avoided threshold). -/
def uC5mix1 : UserProfile :=
  { emptyProfile "u" with
    recommendation_mix := 1
    theme_interactions := [("th", [(-10, 0)])] }

/-- A pure-individual user (`recommendation_mix = 0`). -/
def uC5mix0 : UserProfile :=
  { emptyProfile "u" with recommendation_mix := 0 }

/-- A story with a single mood association 5 → 7 observed at t=0. -/
def stC6 : Story :=
  { mkStory "S" "title" "th" [] with mood_associations := [(5, 7, 0)] }

/-- An engine whose catalog holds `stC6`. -/
def eC6 : Engine := { emptyEngine with stories := [("S", stC6)] }

/-- A context carrying an explicit evaluation clock. -/
def ctxC6 : Context :=
  { current_time := some 0, current_mood := none, promotional_tags := none }

/-- Two distinct stories sharing a theme, both with empty tag lists
(identical — empty — tag sets). -/
def cexC8Stories : List (String × Story) :=
  [("s1", mkStory "s1" "t1" "th" []), ("s2", mkStory "s2" "t2" "th" [])]

/-- Two distinct stories sharing a theme with identical nonempty tag
sets (listed in different orders). -/
def witC8Stories : List (String × Story) :=
  [("a", mkStory "a" "ta" "th" ["p", "q"]),
   ("b", mkStory "b" "tb" "th" ["q", "p"])]

/-- A profile whose mood history is 1, 2, 9 (population variance 38/3;
Bessel-corrected sample variance 19). -/
def cexC9User : UserProfile :=
  { emptyProfile "u" with mood_history := [(0, 1), (1, 2), (2, 9)] }

/-- A context carrying a `current_mood` override of 7. -/
def ctxC10 : Context :=
  { current_time := none, current_mood := some 7, promotional_tags := none }

/-- Operations producing a pending transition "A" → "B" whose mood-after
was pre-filled at creation. -/
def witC2Ops : List Op :=
  [Op.event 0 (evMG "u" 0 6), Op.event 0 (evCp "u" "A" 600),
   Op.event 0 (evCp "u" "B" 900)]

end Rec2

namespace Rec2

/-! ### Association-list lemmas -/

theorem alook_mem {β : Type} {l : List (String × β)} {k : String} {v : β}
    (h : alook l k = some v) : (k, v) ∈ l := by
  induction l with
  | nil => simp [alook] at h
  | cons x rest ih =>
    rw [alook] at h
    by_cases hk : x.1 = k
    · rw [if_pos hk] at h
      obtain ⟨a, b⟩ := x
      simp only at hk h
      injection h with hv
      subst hk
      subst hv
      exact List.mem_cons_self _ _
    · rw [if_neg hk] at h
      exact List.mem_cons_of_mem _ (ih h)

theorem alook_append_of_none {β : Type} {l : List (String × β)} {k : String}
    (v : β) (h : alook l k = none) : alook (l ++ [(k, v)]) k = some v := by
  induction l with
  | nil => simp [alook]
  | cons x rest ih =>
    rw [alook] at h
    by_cases hk : x.1 = k
    · rw [if_pos hk] at h; cases h
    · rw [if_neg hk] at h
      simpa [alook, hk] using ih h

theorem alook_aupsert_self {β : Type} (l : List (String × β)) (k : String)
    (v : β) : alook (aupsert l k v) k = some v := by
  induction l with
  | nil => simp [aupsert, alook]
  | cons x rest ih =>
    by_cases hk : x.1 = k
    · simp [aupsert, alook, hk]
    · simp [aupsert, alook, hk, ih]

theorem mem_aupsert {β : Type} {l : List (String × β)} {k : String} {v : β}
    {p : String × β} (h : p ∈ aupsert l k v) : p.2 = v ∨ p ∈ l := by
  induction l with
  | nil => simp [aupsert] at h; simp [h]
  | cons x rest ih =>
    by_cases hk : x.1 = k
    · rw [aupsert, if_pos hk] at h
      rcases List.mem_cons.mp h with h1 | h1
      · left; rw [h1]
      · right; exact List.mem_cons_of_mem _ h1
    · rw [aupsert, if_neg hk] at h
      rcases List.mem_cons.mp h with h1 | h1
      · right; rw [h1]; exact List.mem_cons_self _ _
      · rcases ih h1 with h2 | h2
        · left; exact h2
        · right; exact List.mem_cons_of_mem _ h2

/-! ### Small evaluation lemmas for the decayed statistics -/

theorem decayFactor_zero_days (hl : ℚ) : decayFactor 0 hl = 1 := by
  unfold decayFactor
  rw [zero_div]
  rw [Rat.cast_zero, Real.rpow_zero]

theorem floatMean_singleton (x : ℝ) : floatMean [x] = x := by
  simp [floatMean]

/-! ### Field-stability lemmas -/

theorem updateMoodTrajectory_current_mood (u : UserProfile) :
    (updateMoodTrajectory u).current_mood = u.current_mood := by
  unfold updateMoodTrajectory; split <;> rfl

theorem updateMoodTrajectory_mood_history (u : UserProfile) :
    (updateMoodTrajectory u).mood_history = u.mood_history := by
  unfold updateMoodTrajectory; split <;> rfl

theorem updateMoodTrajectory_story_sequences (u : UserProfile) :
    (updateMoodTrajectory u).story_sequences = u.story_sequences := by
  unfold updateMoodTrajectory; split <;> rfl

theorem updateStoryTransitionStats_story_transitions (e : Engine) (w : ℚ)
    (fid : String) :
    (updateStoryTransitionStats e w fid).story_transitions =
      e.story_transitions := by
  unfold updateStoryTransitionStats
  split <;> rfl

theorem updateStoryTransitionStats_users (e : Engine) (w : ℚ) (fid : String) :
    (updateStoryTransitionStats e w fid).users = e.users := by
  unfold updateStoryTransitionStats
  split <;> rfl

theorem updateStoryMoodStats_story_transitions (e : Engine) (w : ℚ)
    (sid : String) :
    (updateStoryMoodStats e w sid).story_transitions = e.story_transitions := by
  unfold updateStoryMoodStats
  split
  · rfl
  · split <;> rfl

theorem updateStoryMoodStats_users (e : Engine) (w : ℚ) (sid : String) :
    (updateStoryMoodStats e w sid).users = e.users := by
  unfold updateStoryMoodStats
  split
  · rfl
  · split <;> rfl

theorem patchT_mood_delta_none (k : ℕ) (m : ℚ) (t : StoryTransition) :
    (patchT k m none t).mood_delta = t.mood_delta := by
  unfold patchT; split <;> rfl

/-! ### Dispatch-prelude (`ingestBase`) projections -/

theorem ingestBase_stories (e : Engine) (ev : AnalyticsEvent) :
    (ingestBase e ev).stories = e.stories := by
  unfold ingestBase; dsimp only; split <;> rfl

theorem ingestBase_story_transitions (e : Engine) (ev : AnalyticsEvent) :
    (ingestBase e ev).story_transitions = e.story_transitions := by
  unfold ingestBase; dsimp only; split <;> rfl

theorem ingestBase_graph (e : Engine) (ev : AnalyticsEvent) :
    (ingestBase e ev).global_transition_graph = e.global_transition_graph := by
  unfold ingestBase; dsimp only; split <;> rfl

theorem ingestBase_next_tid (e : Engine) (ev : AnalyticsEvent) :
    (ingestBase e ev).next_tid = e.next_tid := by
  unfold ingestBase; dsimp only; split <;> rfl

theorem ingestBase_window (e : Engine) (ev : AnalyticsEvent) :
    (ingestBase e ev).transition_window_minutes =
      e.transition_window_minutes := by
  unfold ingestBase; dsimp only; split <;> rfl

theorem ingestBase_mood_half_life (e : Engine) (ev : AnalyticsEvent) :
    (ingestBase e ev).mood_half_life_days = e.mood_half_life_days := by
  unfold ingestBase; dsimp only; split <;> rfl

theorem ingestBase_users_shape (e : Engine) (ev : AnalyticsEvent) :
    (ingestBase e ev).users = e.users ∨
      (ingestBase e ev).users =
        e.users ++ [(ev.user_id, emptyProfile ev.user_id)] := by
  unfold ingestBase; dsimp only; split
  · right; rfl
  · left; rfl

theorem ingestBase_users_of_some {e : Engine} {ev : AnalyticsEvent}
    {u : UserProfile} (h : alook e.users ev.user_id = some u) :
    (ingestBase e ev).users = e.users := by
  unfold ingestBase
  dsimp only
  rw [if_neg (by rw [h]; simp)]

/-! ### C7 — mood-effectiveness bucketing -/

/-- C7 (counterexample): the mood-before value 10 — inside the
conventional `[1,10]` range, and claimed to land in the `very_high`
bucket — matches no range of `_calculate_mood_effectiveness` (its
`very_high` test is `9 ≤ v < 10`), so the observation is dropped rather
than assigned to exactly one bucket. -/
theorem c7_value_ten_no_bucket_cex :
    (1 : ℚ) ≤ 10 ∧ (10 : ℚ) ≤ 10 ∧ firstMatchingRange 10 = none := by
  refine ⟨by norm_num, by norm_num, ?_⟩
  with_unfolding_all decide

/-- C7 (amended): every mood-before value in `[1, 10)` is assigned to
exactly one of the five buckets, the first matching range in ascending
order; the boundary value 10 (see the counterexample) matches no range,
even though the scoring-side `_get_mood_range` maps it to `very_high`. -/
theorem c7_bucket_partition (v : ℚ) (h1 : 1 ≤ v) (h2 : v < 10) :
    ∃ r ∈ moodRanges, r.2.1 ≤ v ∧ v < r.2.2 ∧ firstMatchingRange v = some r ∧
      ∀ r2 ∈ moodRanges, r2.2.1 ≤ v → v < r2.2.2 → r2 = r := by
  by_cases h3 : v < 3
  · refine ⟨("very_low", 1, 3), by simp [moodRanges], h1, h3, ?_, ?_⟩
    · simp only [firstMatchingRange, moodRanges, List.find?]
      rw [decide_eq_true (show (1:ℚ) ≤ v ∧ v < 3 from ⟨h1, h3⟩)]
    · intro r2 hr2 hlo hhi
      simp only [moodRanges, List.mem_cons, List.not_mem_nil, or_false] at hr2
      rcases hr2 with h | h | h | h | h <;> subst h <;> first
        | rfl
        | (exfalso; simp only [] at hlo hhi; linarith)
  · by_cases h5 : v < 5
    · refine ⟨("low", 3, 5), by simp [moodRanges], show (3:ℚ) ≤ v by linarith, h5, ?_, ?_⟩
      · simp only [firstMatchingRange, moodRanges, List.find?]
        rw [decide_eq_false (show ¬((1:ℚ) ≤ v ∧ v < 3) from fun hc => h3 hc.2)]
        rw [decide_eq_true (show (3:ℚ) ≤ v ∧ v < 5 from ⟨by linarith, h5⟩)]
      · intro r2 hr2 hlo hhi
        simp only [moodRanges, List.mem_cons, List.not_mem_nil, or_false] at hr2
        rcases hr2 with h | h | h | h | h <;> subst h <;> first
          | rfl
          | (exfalso; simp only [] at hlo hhi; linarith)
    · by_cases h7 : v < 7
      · refine ⟨("medium", 5, 7), by simp [moodRanges], show (5:ℚ) ≤ v by linarith, h7, ?_, ?_⟩
        · simp only [firstMatchingRange, moodRanges, List.find?]
          rw [decide_eq_false (show ¬((1:ℚ) ≤ v ∧ v < 3) from fun hc => h3 hc.2)]
          rw [decide_eq_false (show ¬((3:ℚ) ≤ v ∧ v < 5) from fun hc => h5 hc.2)]
          rw [decide_eq_true (show (5:ℚ) ≤ v ∧ v < 7 from ⟨by linarith, h7⟩)]
        · intro r2 hr2 hlo hhi
          simp only [moodRanges, List.mem_cons, List.not_mem_nil, or_false] at hr2
          rcases hr2 with h | h | h | h | h <;> subst h <;> first
            | rfl
            | (exfalso; simp only [] at hlo hhi; linarith)
      · by_cases h9 : v < 9
        · refine ⟨("high", 7, 9), by simp [moodRanges], show (7:ℚ) ≤ v by linarith, h9, ?_, ?_⟩
          · simp only [firstMatchingRange, moodRanges, List.find?]
            rw [decide_eq_false (show ¬((1:ℚ) ≤ v ∧ v < 3) from fun hc => h3 hc.2)]
            rw [decide_eq_false (show ¬((3:ℚ) ≤ v ∧ v < 5) from fun hc => h5 hc.2)]
            rw [decide_eq_false (show ¬((5:ℚ) ≤ v ∧ v < 7) from fun hc => h7 hc.2)]
            rw [decide_eq_true (show (7:ℚ) ≤ v ∧ v < 9 from ⟨by linarith, h9⟩)]
          · intro r2 hr2 hlo hhi
            simp only [moodRanges, List.mem_cons, List.not_mem_nil, or_false] at hr2
            rcases hr2 with h | h | h | h | h <;> subst h <;> first
              | rfl
              | (exfalso; simp only [] at hlo hhi; linarith)
        · refine ⟨("very_high", 9, 10), by simp [moodRanges], show (9:ℚ) ≤ v by linarith, h2, ?_, ?_⟩
          · simp only [firstMatchingRange, moodRanges, List.find?]
            rw [decide_eq_false (show ¬((1:ℚ) ≤ v ∧ v < 3) from fun hc => h3 hc.2)]
            rw [decide_eq_false (show ¬((3:ℚ) ≤ v ∧ v < 5) from fun hc => h5 hc.2)]
            rw [decide_eq_false (show ¬((5:ℚ) ≤ v ∧ v < 7) from fun hc => h7 hc.2)]
            rw [decide_eq_false (show ¬((7:ℚ) ≤ v ∧ v < 9) from fun hc => h9 hc.2)]
            rw [decide_eq_true (show (9:ℚ) ≤ v ∧ v < 10 from ⟨by linarith, h2⟩)]
          · intro r2 hr2 hlo hhi
            simp only [moodRanges, List.mem_cons, List.not_mem_nil, or_false] at hr2
            rcases hr2 with h | h | h | h | h <;> subst h <;> first
              | rfl
              | (exfalso; simp only [] at hlo hhi; linarith)

/-- C7 (witness): the amended bucketing theorem applied at the concrete
value 5, which lands in `medium`. -/
theorem c7_bucket_partition_witness :
    (1 : ℚ) ≤ 5 ∧ (5 : ℚ) < 10 ∧
      (∃ r ∈ moodRanges, r.2.1 ≤ (5 : ℚ) ∧ (5 : ℚ) < r.2.2 ∧
        firstMatchingRange 5 = some r ∧
        ∀ r2 ∈ moodRanges, r2.2.1 ≤ (5 : ℚ) → (5 : ℚ) < r2.2.2 → r2 = r) :=
  ⟨by norm_num, by norm_num, c7_bucket_partition 5 (by norm_num) (by norm_num)⟩

/-! ### C9 — mood trend and volatility -/

/-- C9 (counterexample): on the mood history 1, 2, 9 the engine's stored
volatility is `np.std`, whose square is the population variance 38/3,
while the claimed *sample* standard deviation squares to 19; since both
standard deviations are nonnegative and the square root is injective on
nonnegatives, the two differ, refuting "volatility equals the sample
standard deviation". -/
theorem c9_volatility_not_sample_std_cex :
    (updateMoodTrajectory cexC9User).mood_volatility_sq = some (38 / 3) ∧
      sampleVarianceSpec [1, 2, 9] = 19 ∧ (38 / 3 : ℚ) ≠ 19 := by
  refine ⟨?_, ?_, ?_⟩ <;> with_unfolding_all decide

/-- C9 (amended): with fewer than 3 mood-history entries the trend is
"stable" and the volatility 0; otherwise, over the last 10 samples, the
least-squares slope against the sample index classifies the trend
(> 0.2 improving, < −0.2 declining, else stable) and the volatility is
the *population* standard deviation (`np.std`, dividing by N — not the
Bessel-corrected sample standard deviation), stored here as its
square. -/
theorem c9_mood_trajectory_amended (u : UserProfile) :
    (u.mood_history.length < 3 →
      (updateMoodTrajectory u).mood_trend = some "stable" ∧
        (updateMoodTrajectory u).mood_volatility_sq = some 0) ∧
    (3 ≤ u.mood_history.length →
      (updateMoodTrajectory u).mood_trend =
          some (if 0.2 < lsqSlope ((lastN u.mood_history 10).map (fun p => p.2))
                then "improving"
                else if lsqSlope ((lastN u.mood_history 10).map (fun p => p.2)) <
                    -0.2
                then "declining"
                else "stable") ∧
        (updateMoodTrajectory u).mood_volatility_sq =
          some (popVariance ((lastN u.mood_history 10).map (fun p => p.2)))) := by
  constructor
  · intro h
    unfold updateMoodTrajectory
    rw [if_pos h]
    exact ⟨rfl, rfl⟩
  · intro h
    unfold updateMoodTrajectory
    rw [if_neg (by omega)]
    refine ⟨rfl, rfl⟩

/-- C9 (witness): the amended trajectory theorem applied to the concrete
3-entry history 1, 2, 9 (slope 4, trend improving, variance 38/3). -/
theorem c9_mood_trajectory_witness :
    3 ≤ cexC9User.mood_history.length ∧
      ((updateMoodTrajectory cexC9User).mood_trend =
          some (if 0.2 < lsqSlope ((lastN cexC9User.mood_history 10).map
                    (fun p => p.2))
                then "improving"
                else if lsqSlope ((lastN cexC9User.mood_history 10).map
                    (fun p => p.2)) < -0.2
                then "declining"
                else "stable") ∧
        (updateMoodTrajectory cexC9User).mood_volatility_sq =
          some (popVariance ((lastN cexC9User.mood_history 10).map
            (fun p => p.2)))) :=
  ⟨by decide, (c9_mood_trajectory_amended cexC9User).2 (by decide)⟩

/-! ### C4 — rejected-event semantics -/

/-- C4 (counterexample): an unknown-type event for a fresh user is *not*
a no-op: `add_event` appends it to the event log and inserts a fresh
profile into the users map before the type dispatch, refuting "leaves
the entire engine state unchanged — including the event log and the
users map". -/
theorem c4_unknown_event_mutates_cex :
    (addEvent emptyEngine 0 evBogus).1.events ≠ emptyEngine.events ∧
      (alook (addEvent emptyEngine 0 evBogus).1.users "u").isSome = true := by
  constructor <;> with_unfolding_all decide

/-- C4 (amended): a rejected event is *not* state-neutral but its damage
is exactly the dispatch prelude: for an unknown event type, `add_event`
appends the event to the log and creates the profile for an unseen user,
makes no further change and raises nothing; for a known type with a
missing required payload field it leaves that same prelude state behind
and a `KeyError` propagates (the returned flag). -/
theorem c4_rejected_event_semantics (e : Engine) (w : ℚ)
    (ev : AnalyticsEvent) :
    (ev.event_type ∉ knownEventTypes → addEvent e w ev = (ingestBase e ev, false)) ∧
    (missingRequiredField ev → addEvent e w ev = (ingestBase e ev, true)) := by
  constructor
  · intro h
    simp only [knownEventTypes, List.mem_cons, List.not_mem_nil, or_false,
      not_or] at h
    obtain ⟨h1, h2, h3, h4, h5, h6, h7⟩ := h
    unfold addEvent
    split <;> simp_all [ingestBase]
  · intro h
    obtain ⟨uid, et, ts, d⟩ := ev
    obtain ⟨sidO, msO, thO, posO⟩ := d
    rcases h with ⟨ht, hf⟩ | ⟨ht, hf⟩ | ⟨ht, hf⟩ | ⟨ht, hf⟩ | ⟨ht, hf⟩ | ⟨ht, hf⟩
    · simp only at ht hf
      subst ht; subst hf; rfl
    · simp only at ht hf
      subst ht; subst hf; rfl
    · simp only at ht hf
      subst ht; subst hf; rfl
    · simp only at ht
      subst ht
      rcases hf with hf | hf
      · simp only at hf
        subst hf; rfl
      · simp only at hf
        subst hf
        cases sidO <;> rfl
    · simp only at ht hf
      subst ht; subst hf; rfl
    · simp only at ht hf
      subst ht; subst hf; rfl

/-- C4 (witness): the rejected-event theorem applied to a concrete
unknown-type event and a concrete `slider_position` event missing its
`position` key, both against the fresh engine. -/
theorem c4_rejected_event_semantics_witness :
    (evBogus.event_type ∉ knownEventTypes ∧
      addEvent emptyEngine 0 evBogus = (ingestBase emptyEngine evBogus, false)) ∧
    (missingRequiredField evSliderBad ∧
      addEvent emptyEngine 0 evSliderBad =
        (ingestBase emptyEngine evSliderBad, true)) :=
  ⟨⟨by decide, (c4_rejected_event_semantics emptyEngine 0 evBogus).1 (by decide)⟩,
   ⟨Or.inr (Or.inr (Or.inr (Or.inr (Or.inr ⟨rfl, rfl⟩)))),
    (c4_rejected_event_semantics emptyEngine 0 evSliderBad).2
      (Or.inr (Or.inr (Or.inr (Or.inr (Or.inr ⟨rfl, rfl⟩)))))⟩⟩

/-! ### C8 — story similarity -/

/-- C8 (counterexample): two distinct stories with the same theme and
identical — empty — tag sets have similarity 0.5, not the claimed 1.0:
the tag term is skipped whenever either tag list is empty
(`if story1.tags and story2.tags`). -/
theorem c8_empty_tagsets_cex :
    storySimilarity cexC8Stories "s1" "s2" = 0.5 ∧ (0.5 : ℚ) ≠ 1 := by
  constructor <;> with_unfolding_all decide

/-- C8 (amended): for distinct catalog stories, same theme plus disjoint
tag sets gives exactly 0.5 and distinct themes plus disjoint tag sets
exactly 0.0; same theme plus identical *nonempty* tag sets gives exactly
1.0 (with both tag lists empty the tag term is skipped and the
similarity is 0.5, see the counterexample); and self-similarity is 1.0
regardless of fields. -/
theorem c8_story_similarity_amended (stories : List (String × Story))
    (id1 id2 : String) (s1 s2 : Story)
    (h1 : alook stories id1 = some s1) (h2 : alook stories id2 = some s2)
    (hne : id1 ≠ id2) :
    (s1.theme = s2.theme → (∀ tg ∈ s1.tags, tg ∉ s2.tags) →
      storySimilarity stories id1 id2 = 0.5) ∧
    (s1.theme = s2.theme → s1.tags ≠ [] →
      (∀ tg, tg ∈ s1.tags ↔ tg ∈ s2.tags) →
      storySimilarity stories id1 id2 = 1) ∧
    (s1.theme ≠ s2.theme → (∀ tg ∈ s1.tags, tg ∉ s2.tags) →
      storySimilarity stories id1 id2 = 0) ∧
    (∀ sid, storySimilarity stories sid sid = 1) := by
  have hbase : storySimilarity stories id1 id2 =
      (if s1.tags ≠ [] ∧ s2.tags ≠ [] then
        (if (s1.tags.dedup ++
              s2.tags.dedup.filter (fun x => decide (x ∉ s1.tags.dedup))).length
            > 0 then
          (if s1.theme = s2.theme then (0.5 : ℚ) else 0) +
            0.5 *
              (((s1.tags.dedup.filter
                  (fun x => decide (x ∈ s2.tags.dedup))).length : ℚ) /
                (((s1.tags.dedup ++
                    s2.tags.dedup.filter
                      (fun x => decide (x ∉ s1.tags.dedup))).length : ℚ)))
        else (if s1.theme = s2.theme then (0.5 : ℚ) else 0))
      else (if s1.theme = s2.theme then (0.5 : ℚ) else 0)) := by
    unfold storySimilarity
    rw [if_neg hne, h1, h2]
  have hdisjfil : (∀ tg ∈ s1.tags, tg ∉ s2.tags) →
      s1.tags.dedup.filter (fun x => decide (x ∈ s2.tags.dedup)) = [] := by
    intro hdisj
    rw [List.filter_eq_nil_iff]
    intro a ha hdec
    rw [decide_eq_true_eq, List.mem_dedup] at hdec
    exact hdisj a (List.mem_dedup.mp ha) hdec
  refine ⟨?_, ?_, ?_, ?_⟩
  · intro hth hdisj
    rw [hbase]
    by_cases hnil : s1.tags ≠ [] ∧ s2.tags ≠ []
    · rw [if_pos hnil, hdisjfil hdisj]
      split
      · simp [if_pos hth]
      · rfl
    · rw [if_neg hnil, if_pos hth]
  · intro hth hs1 hiff
    rw [hbase]
    have hs2 : s2.tags ≠ [] := by
      intro hc
      obtain ⟨a, ha⟩ := List.exists_mem_of_ne_nil _ hs1
      have hmem := (hiff a).mp ha
      rw [hc] at hmem
      exact List.not_mem_nil a hmem
    rw [if_pos ⟨hs1, hs2⟩]
    have hfil1 : s1.tags.dedup.filter (fun x => decide (x ∈ s2.tags.dedup)) =
        s1.tags.dedup := by
      rw [List.filter_eq_self]
      intro a ha
      rw [decide_eq_true_eq, List.mem_dedup]
      exact (hiff a).mp (List.mem_dedup.mp ha)
    have hfil2 : s2.tags.dedup.filter (fun x => decide (x ∉ s1.tags.dedup)) =
        [] := by
      rw [List.filter_eq_nil_iff]
      intro a ha hdec
      rw [decide_eq_true_eq] at hdec
      exact hdec (List.mem_dedup.mpr ((hiff a).mpr (List.mem_dedup.mp ha)))
    rw [hfil1, hfil2, List.append_nil]
    have hpos : 0 < s1.tags.dedup.length := by
      rw [List.length_pos]
      intro hc
      exact hs1 ((List.dedup_eq_nil _).mp hc)
    rw [if_pos hpos]
    have hne0 : ((s1.tags.dedup.length : ℕ) : ℚ) ≠ 0 := by
      exact_mod_cast Nat.pos_iff_ne_zero.mp hpos
    rw [div_self hne0, if_pos hth]
    norm_num
  · intro hth hdisj
    rw [hbase]
    by_cases hnil : s1.tags ≠ [] ∧ s2.tags ≠ []
    · rw [if_pos hnil, hdisjfil hdisj]
      split
      · simp [if_neg hth]
      · rfl
    · rw [if_neg hnil, if_neg hth]
  · intro sid
    unfold storySimilarity
    rw [if_pos rfl]

/-- C8 (witness): the amended similarity theorem applied to the concrete
catalog of two same-theme stories with identical nonempty tag sets
`{p, q}` listed in different orders. -/
theorem c8_story_similarity_witness :
    ((mkStory "a" "ta" "th" ["p", "q"]).theme =
        (mkStory "b" "tb" "th" ["q", "p"]).theme →
      (mkStory "a" "ta" "th" ["p", "q"]).tags ≠ [] →
      (∀ tg, tg ∈ (mkStory "a" "ta" "th" ["p", "q"]).tags ↔
        tg ∈ (mkStory "b" "tb" "th" ["q", "p"]).tags) →
      storySimilarity witC8Stories "a" "b" = 1) ∧
    ((1 : ℚ) = 1 ∧ storySimilarity witC8Stories "a" "b" = 1) := by
  have happ := c8_story_similarity_amended witC8Stories "a" "b"
    (mkStory "a" "ta" "th" ["p", "q"]) (mkStory "b" "tb" "th" ["q", "p"])
    rfl rfl (by decide)
  refine ⟨happ.2.1, rfl, happ.2.1 rfl (by simp [mkStory]) ?_⟩
  intro tg
  constructor <;> intro h <;> simp only [mkStory, List.mem_cons] at h ⊢ <;> tauto

/-! ### C10 — get_recommendations mutations -/

/-- C10: `get_recommendations` is not read-only: an unseen user id gets a
fresh `UserProfile` permanently inserted into the engine's users map
(carrying the context's mood override when present), and for an existing
user a context `current_mood` override permanently overwrites the stored
mood; both mutations are visible in the engine state the call leaves
behind. -/
theorem c10_get_recommendations_mutates (w : ℚ) (e : Engine) (uid : String)
    (ctx : Context) (n : ℕ) :
    (alook e.users uid = none →
      alook (getRecommendations w e uid ctx n).2.users uid =
        some (match ctx.current_mood with
              | some m => { emptyProfile uid with current_mood := some m }
              | none => emptyProfile uid)) ∧
    (∀ u0 m, alook e.users uid = some u0 → ctx.current_mood = some m →
      alook (getRecommendations w e uid ctx n).2.users uid =
        some { u0 with current_mood := some m }) := by
  constructor
  · intro habs
    cases hcm : ctx.current_mood with
    | none =>
      unfold getRecommendations
      rw [hcm, habs]
      rw [if_pos (show (none : Option UserProfile).isNone = true from rfl)]
      exact alook_append_of_none _ habs
    | some m =>
      unfold getRecommendations
      rw [hcm, habs]
      rw [if_pos (show (none : Option UserProfile).isNone = true from rfl)]
      have hfetch : alook (e.users ++ [(uid, emptyProfile uid)]) uid =
          some (emptyProfile uid) := alook_append_of_none _ habs
      show alook (aupsert (e.users ++ [(uid, emptyProfile uid)]) uid
          { (alook (e.users ++ [(uid, emptyProfile uid)]) uid).getD
              (emptyProfile uid) with current_mood := some m }) uid =
        some { emptyProfile uid with current_mood := some m }
      rw [hfetch]
      simp only [Option.getD_some]
      exact alook_aupsert_self _ _ _
  · intro u0 m hpres hcm
    unfold getRecommendations
    rw [hcm]
    rw [if_neg (show ¬((alook e.users uid).isNone = true) by rw [hpres]; simp)]
    show alook (aupsert e.users uid
        { (alook e.users uid).getD (emptyProfile uid) with
          current_mood := some m }) uid =
      some { u0 with current_mood := some m }
    rw [hpres]
    simp only [Option.getD_some]
    exact alook_aupsert_self _ _ _

/-- C10 (witness): calling `get_recommendations` for the unseen user "u"
with a context mood override of 7 leaves a stored profile whose
`current_mood` is 7 in the returned engine. -/
theorem c10_get_recommendations_mutates_witness :
    alook emptyEngine.users "u" = none ∧
      alook (getRecommendations 0 emptyEngine "u" ctxC10 5).2.users "u" =
        some { emptyProfile "u" with current_mood := some 7 } :=
  ⟨rfl, (c10_get_recommendations_mutates 0 emptyEngine "u" ctxC10 5).1 rfl⟩

/-! ### C6 — explicit clock vs wall clock -/

/-- C6 (counterexample): the per-story aggregation reads the wall clock —
`_update_story_mood_stats` calls `datetime.now()` — so the stored
`mood_effectiveness` of the same story updated over the same
associations differs between two physical execution instants (here 2 at
ingestion instant 0 versus 1 fourteen days later), refuting "every decay
computation takes its now from the explicitly passed evaluation
timestamp, never from an implicit wall-clock read". -/
theorem c6_wall_clock_dependence_cex :
    (alook (updateStoryMoodStats eC6 0 "S").stories "S").map
        (fun s => s.mood_effectiveness) ≠
      (alook (updateStoryMoodStats eC6 (14 * 86400) "S").stories "S").map
        (fun s => s.mood_effectiveness) := by
  have h0a : (alook (updateStoryMoodStats eC6 0 "S").stories "S").map
      (fun s => s.mood_effectiveness) =
      some [("medium",
        floatMean [((7 - 5 : ℚ) : ℝ) *
          decayFactor ((0 - 0 : ℚ) / 86400) 14])] := by
    with_unfolding_all rfl
  have h14a : (alook (updateStoryMoodStats eC6 (14 * 86400) "S").stories "S").map
      (fun s => s.mood_effectiveness) =
      some [("medium",
        floatMean [((7 - 5 : ℚ) : ℝ) *
          decayFactor ((14 * 86400 - 0 : ℚ) / 86400) 14])] := by
    with_unfolding_all rfl
  have hv0 : floatMean [((7 - 5 : ℚ) : ℝ) *
      decayFactor ((0 - 0 : ℚ) / 86400) 14] = 2 := by
    rw [show ((0 - 0 : ℚ) / 86400) = 0 by norm_num, decayFactor_zero_days,
      floatMean_singleton]
    norm_num
  have hv14 : floatMean [((7 - 5 : ℚ) : ℝ) *
      decayFactor ((14 * 86400 - 0 : ℚ) / 86400) 14] = 1 := by
    rw [floatMean_singleton]
    unfold decayFactor
    rw [show ((14 * 86400 - 0 : ℚ) / 86400) / 14 = 1 by norm_num]
    rw [Rat.cast_one, Real.rpow_one]
    norm_num
  rw [h0a, h14a, hv0, hv14]
  simp only [ne_eq, Option.some.injEq, List.cons.injEq, Prod.mk.injEq,
    and_true, true_and]
  norm_num

/-- C6 (amended): the *scoring* path is wall-clock free given an explicit
evaluation clock — `get_recommendations` reads `datetime.now()` only as
the fallback when the context carries no `current_time` — but the
ingestion-time aggregation reads the wall clock (see the counterexample),
so derived statistics depend on the physical ingestion instants. -/
theorem c6_explicit_clock_scoring (w1 w2 : ℚ) (e : Engine) (uid : String)
    (ctx : Context) (n : ℕ) (t : ℚ) (h : ctx.current_time = some t) :
    getRecommendations w1 e uid ctx n = getRecommendations w2 e uid ctx n := by
  unfold getRecommendations
  rw [h]
  simp only [Option.getD_some]

/-- C6 (witness): two different wall clocks, same explicit evaluation
clock, identical recommendation output over the concrete one-story
engine. -/
theorem c6_explicit_clock_scoring_witness :
    ctxC6.current_time = some 0 ∧
      getRecommendations 5 eC6 "u" ctxC6 3 = getRecommendations 99 eC6 "u" ctxC6 3 :=
  ⟨rfl, c6_explicit_clock_scoring 5 99 eC6 "u" ctxC6 3 0 rfl⟩

/-! ### C5 — recommendation-mix scaling -/

/-- C5 (counterexample): with `recommendation_mix = 1.0` the flat −5.0
avoided-theme penalty still applies — the theme-preference contribution
is −5, not the claimed 0 — because the source subtracts the penalty
outside the individually-weighted term. -/
theorem c5_avoided_penalty_unscaled_cex :
    uC5mix1.recommendation_mix = 1 ∧
      themePreferenceContribution emptyEngine uC5mix1 stC5 0 = -5 ∧
      (-5 : ℝ) ≠ 0 := by
  refine ⟨rfl, ?_, by norm_num⟩
  have hlt : ((-10 : ℚ) : ℝ) * decayFactor ((0 - 0 : ℚ) / 86400) 30 + 0 < -1 := by
    rw [show ((0 - 0 : ℚ) / 86400) = 0 by norm_num, decayFactor_zero_days]
    norm_num
  have hmem : stC5.theme ∈ getAvoidedThemes uC5mix1 0 := by
    unfold getAvoidedThemes decayedThemeScores
    rw [show uC5mix1.theme_interactions = [("th", [((-10 : ℚ), (0 : ℚ))])]
      from rfl]
    simp only [List.map_cons, List.map_nil, List.sum_cons, List.sum_nil]
    rw [List.filter_cons]
    rw [decide_eq_true hlt]
    simp [stC5, mkStory]
  have hiw : individualWeight uC5mix1.recommendation_mix = 0 := by
    unfold individualWeight
    rw [show uC5mix1.recommendation_mix = 1 from rfl]
    rw [if_neg (by norm_num)]
    norm_num
  show (alook (decayedThemeScores uC5mix1 0 emptyEngine.event_half_life_days)
      stC5.theme).getD 0 * 1.5 *
      ((individualWeight uC5mix1.recommendation_mix : ℚ) : ℝ) -
      (if stC5.theme ∈ getAvoidedThemes uC5mix1 0 then (5 : ℝ) else 0) = -5
  rw [if_pos hmem, hiw]
  push_cast
  ring

/-- C5 (amended): with `recommendation_mix = 0.0` the collaborative
filtering, collaborative sequence and popularity contributions are all
zero; with `recommendation_mix = 1.0` the mood-match, sequence, personal
impact, content and favorites contributions are all zero and the theme
preference's weighted score is zero, but the flat −5.0 avoided-theme
penalty still applies regardless of the mix (see the counterexample). -/
theorem c5_scoring_mix_amended (e : Engine) (u : UserProfile) (st : Story)
    (now : ℚ) :
    (u.recommendation_mix = 0 →
      collabFilterContribution e u st now = 0 ∧
      collabSequenceContribution e u st now = 0 ∧
      popularityContribution e u st now = 0) ∧
    (u.recommendation_mix = 1 →
      moodMatchContribution e u st now = 0 ∧
      sequenceContribution e u st now = 0 ∧
      personalImpactContribution e u st now = 0 ∧
      contentContribution e u st now = 0 ∧
      favoritesContribution e u st now = 0 ∧
      themePreferenceContribution e u st now =
        -(if st.theme ∈ getAvoidedThemes u now then (5 : ℝ) else 0)) := by
  have hcw0 : collaborativeWeight 0 = 0 := by
    unfold collaborativeWeight
    rw [if_neg (by norm_num)]
  have hiw1 : individualWeight 1 = 0 := by
    unfold individualWeight
    rw [if_neg (by norm_num)]
    norm_num
  constructor
  · intro hmix
    refine ⟨?_, ?_, ?_⟩
    · unfold collabFilterContribution
      simp [hmix, hcw0]
    · unfold collabSequenceContribution
      simp [hmix, hcw0]
    · unfold popularityContribution
      simp [hmix, hcw0]
  · intro hmix
    refine ⟨?_, ?_, ?_, ?_, ?_, ?_⟩
    · unfold moodMatchContribution
      simp [hmix, hiw1]
    · unfold sequenceContribution
      simp [hmix, hiw1]
    · unfold personalImpactContribution
      cases halook : alook u.story_mood_impact st.id <;>
        simp [hmix, hiw1, halook]
    · unfold contentContribution
      simp [hmix, hiw1]
    · unfold favoritesContribution
      simp [hmix, hiw1]
    · unfold themePreferenceContribution
      simp [hmix, hiw1]

/-- C5 (witness): the amended mix theorem applied at the concrete
pure-individual user `uC5mix0` and the concrete story. -/
theorem c5_scoring_mix_witness :
    uC5mix0.recommendation_mix = 0 ∧
      (collabFilterContribution emptyEngine uC5mix0 stC5 0 = 0 ∧
        collabSequenceContribution emptyEngine uC5mix0 stC5 0 = 0 ∧
        popularityContribution emptyEngine uC5mix0 stC5 0 = 0) :=
  ⟨rfl, (c5_scoring_mix_amended emptyEngine uC5mix0 stC5 0).1 rfl⟩

/-! ### C1 — transition creation (counterexample part) -/

/-- C1 (counterexample): in the concrete run of `cexC1Engine` the created
transition "A" → "B" carries `mood_after = 6.0` — the user's stale
`current_mood` at the second completion — not the claimed null: creation
pre-fills `mood_after` from `current_mood` whenever one exists. -/
theorem c1_mood_after_prefilled_cex :
    cexC1Engine.story_transitions.map
        (fun t => (t.from_story_id, t.to_story_id, t.mood_before, t.mood_after)) =
      [("A", "B", some 6, some 6)] ∧ (some (6 : ℚ) ≠ (none : Option ℚ)) := by
  constructor
  · with_unfolding_all decide
  · simp

/-! ### C2 — mood_after backfill (counterexample part) -/

/-- C2 (counterexample): in the spec's own backfill scenario (complete
"A", mood_after 5 for "A", complete "B", mood_after 7.5 for "B") the
transition's `mood_delta` is −1 — fixed at creation as
`current_mood − mood-before-at-A = 5 − 6` — and the later `mood_after`
event for "B" does not set it to the claimed `7.5 − 6 = 1.5`: the
transition's `mood_after` was pre-filled at creation, so the backfill
guard `mood_after is None` never fires. -/
theorem c2_backfill_dead_cex :
    cexC2Engine.story_transitions.map (fun t => t.mood_delta) = [some (-1)] ∧
      some (-1 : ℚ) ≠ some (7.5 - 6 : ℚ) := by
  constructor
  · with_unfolding_all decide
  · with_unfolding_all decide

/-! ### C1 — transition creation (amended theorem) -/

/-- C1 (amended): completing story B for a user whose prior completion is
story A creates exactly one new StoryTransition A → B when the elapsed
minutes are at most the transition window, with `mood_before` taken from
the most recent mood-history entry at or before the prior completion's
timestamp and `mood_after` *pre-filled from the user's current mood at
creation* (null only when no current mood exists — not always null as
claimed; the delta is computed at creation when both are present); when
the gap exceeds the window no transition is created. -/
theorem c1_transition_creation_amended (e : Engine) (w : ℚ)
    (ev : AnalyticsEvent) (sid fid : String) (u : UserProfile) (lct : ℚ)
    (htype : ev.event_type = "complete")
    (hsid : ev.data.story_id = some sid)
    (hu : alook e.users ev.user_id = some u)
    (hfid : u.last_completed_story = some fid)
    (hne : fid ≠ "")
    (hlct : u.last_completed_timestamp = some lct) :
    ((ev.timestamp - lct) / 60 ≤ e.transition_window_minutes →
      (addEvent e w ev).1.story_transitions =
        e.story_transitions ++
          [mkTransition e.next_tid fid sid u.user_id ev.timestamp
            ((u.mood_history.reverse.find? (fun p => decide (p.1 ≤ lct))).map
              (fun p => p.2))
            u.current_mood ((ev.timestamp - lct) / 60)]) ∧
    (e.transition_window_minutes < (ev.timestamp - lct) / 60 →
      (addEvent e w ev).1.story_transitions = e.story_transitions) := by
  obtain ⟨uid, et, ts, d⟩ := ev
  simp only at htype hsid hu ⊢
  subst htype
  obtain ⟨sidO, msO, thO, posO⟩ := d
  simp only at hsid
  subst hsid
  have hu1 : alook (ingestBase e
      ⟨uid, "complete", ts, ⟨some sid, msO, thO, posO⟩⟩).users uid = some u := by
    rw [ingestBase_users_of_some hu]
    exact hu
  constructor
  · intro hwin
    unfold addEvent
    dsimp only
    rw [hu1]
    simp only [Option.getD_some]
    rw [ingestBase_stories, ingestBase_window]
    cases hst : alook e.stories sid with
    | none =>
      rw [hfid, hlct]
      dsimp only
      rw [if_pos hne, if_pos hwin]
      unfold recordStoryTransition writeUser
      dsimp only
      rw [updateStoryTransitionStats_story_transitions]
      rw [ingestBase_story_transitions, ingestBase_next_tid]
    | some st =>
      rw [hfid, hlct]
      dsimp only
      rw [if_pos hne, if_pos hwin]
      unfold recordStoryTransition writeUser
      dsimp only
      rw [updateStoryTransitionStats_story_transitions]
      rw [ingestBase_story_transitions, ingestBase_next_tid]
  · intro hwin
    unfold addEvent
    dsimp only
    rw [hu1]
    simp only [Option.getD_some]
    rw [ingestBase_stories, ingestBase_window]
    cases hst : alook e.stories sid with
    | none =>
      rw [hfid, hlct]
      dsimp only
      rw [if_pos hne, if_neg (not_le.mpr hwin)]
      unfold writeUser
      dsimp only
      rw [ingestBase_story_transitions]
    | some st =>
      rw [hfid, hlct]
      dsimp only
      rw [if_pos hne, if_neg (not_le.mpr hwin)]
      unfold writeUser
      dsimp only
      rw [ingestBase_story_transitions]

/-- C1 (witness): the amended creation theorem applied to the concrete
mid-session user `witC1User` completing "B" 5 minutes after "A". -/
theorem c1_transition_creation_witness :
    ((900 : ℚ) - 600) / 60 ≤ witC1Engine.transition_window_minutes ∧
      (addEvent witC1Engine 0 (evCp "u" "B" 900)).1.story_transitions =
        witC1Engine.story_transitions ++
          [mkTransition witC1Engine.next_tid "A" "B" witC1User.user_id 900
            ((witC1User.mood_history.reverse.find?
                (fun p => decide (p.1 ≤ 600))).map (fun p => p.2))
            witC1User.current_mood ((900 - 600) / 60)] :=
  ⟨by with_unfolding_all decide,
   (c1_transition_creation_amended witC1Engine 0 (evCp "u" "B" 900) "B" "A"
      witC1User 600 rfl rfl rfl rfl (by decide) rfl).1
     (by with_unfolding_all decide)⟩

/-! ### Core-invariant preservation -/

theorem goodProfile_empty (uid : String) : GoodProfile (emptyProfile uid) := by
  constructor
  · intro _; rfl
  · intro t ht
    simp [emptyProfile] at ht

theorem invCore_users_eq {e1 e2 : Engine} (h12 : e2.users = e1.users)
    (h : InvCore e1) : InvCore e2 := by
  intro p hp
  exact h p (h12 ▸ hp)

theorem invCore_writeUser {e : Engine} (uid : String) (u' : UserProfile)
    (h : InvCore e) (hg : GoodProfile u') : InvCore (writeUser e uid u') := by
  intro p hp
  rcases mem_aupsert hp with h1 | h1
  · rw [h1]; exact hg
  · exact h p h1

theorem getLast?_mem' {α : Type} {l : List α} {x : α}
    (h : l.getLast? = some x) : x ∈ l := by
  induction l with
  | nil => simp [List.getLast?] at h
  | cons a rest ih =>
    cases rest with
    | nil =>
      simp [List.getLast?] at h
      simp [h]
    | cons b rest2 =>
      rw [List.getLast?_cons_cons] at h
      exact List.mem_cons_of_mem _ (ih h)

theorem goodProfile_updateMoodTrajectory {u : UserProfile}
    (hg : GoodProfile u) : GoodProfile (updateMoodTrajectory u) := by
  constructor
  · rw [updateMoodTrajectory_current_mood, updateMoodTrajectory_mood_history]
    exact hg.1
  · rw [updateMoodTrajectory_story_sequences]
    exact hg.2

theorem recordStoryTransition_users (e : Engine) (w : ℚ) (u : UserProfile)
    (fid sid : String) (ts tbm : ℚ) :
    (recordStoryTransition e w u fid sid ts tbm).2.users = e.users := by
  unfold recordStoryTransition
  dsimp only
  rw [updateStoryTransitionStats_users]

theorem goodProfile_record {e : Engine} {w : ℚ} {u : UserProfile}
    {fid sid : String} {ts tbm : ℚ} (hg : GoodProfile u) :
    GoodProfile (recordStoryTransition e w u fid sid ts tbm).1 := by
  have hnew : ∀ (tbm' : ℚ),
      (mkTransition e.next_tid fid sid u.user_id ts
        (match u.last_completed_timestamp with
         | some lct =>
           ((u.mood_history.reverse).find? (fun p => decide (p.1 ≤ lct))).map
             (fun p => p.2)
         | none => none)
        u.current_mood tbm').mood_after = none →
      (mkTransition e.next_tid fid sid u.user_id ts
        (match u.last_completed_timestamp with
         | some lct =>
           ((u.mood_history.reverse).find? (fun p => decide (p.1 ≤ lct))).map
             (fun p => p.2)
         | none => none)
        u.current_mood tbm').mood_before = none := by
    intro tbm' hma
    have hcm : u.current_mood = none := hma
    have hmh : u.mood_history = [] := hg.1 hcm
    show (match u.last_completed_timestamp with
      | some lct =>
        ((u.mood_history.reverse).find? (fun p => decide (p.1 ≤ lct))).map
          (fun p => p.2)
      | none => none) = none
    rw [hmh]
    cases u.last_completed_timestamp <;> simp [List.find?]
  unfold recordStoryTransition
  dsimp only
  have hseq : ∀ t' ∈ u.story_sequences ++
      [mkTransition e.next_tid fid sid u.user_id ts
        (match u.last_completed_timestamp with
         | some lct =>
           ((u.mood_history.reverse).find? (fun p => decide (p.1 ≤ lct))).map
             (fun p => p.2)
         | none => none)
        u.current_mood tbm],
      t'.mood_after = none → t'.mood_before = none := by
    intro t' ht'
    rcases List.mem_append.mp ht' with h1 | h1
    · exact hg.2 t' h1
    · rw [List.mem_singleton.mp h1]
      exact hnew tbm
  split
  · split
    · exact ⟨hg.1, hseq⟩
    · exact ⟨hg.1, hseq⟩
  · exact ⟨hg.1, hseq⟩

theorem invCore_ingestBase {e : Engine} (ev : AnalyticsEvent)
    (h : InvCore e) : InvCore (ingestBase e ev) := by
  intro p hp
  rcases ingestBase_users_shape e ev with heq | heq
  · exact h p (heq ▸ hp)
  · rw [heq] at hp
    rcases List.mem_append.mp hp with h1 | h1
    · exact h p h1
    · rw [List.mem_singleton.mp h1]
      exact goodProfile_empty _

theorem goodProfile_ingestFetch {e : Engine} (ev : AnalyticsEvent)
    (h : InvCore e) :
    GoodProfile ((alook (ingestBase e ev).users ev.user_id).getD
      (emptyProfile ev.user_id)) := by
  cases hal : alook (ingestBase e ev).users ev.user_id with
  | none => simpa using goodProfile_empty ev.user_id
  | some v =>
    simp only [Option.getD_some]
    exact invCore_ingestBase ev h _ (alook_mem hal)

theorem updateRecentTransitionMood_good (e : Engine) (w : ℚ)
    (u : UserProfile) (sid : String) (m : ℚ) (hg : GoodProfile u) :
    GoodProfile (updateRecentTransitionMood e w u sid m).1 ∧
      (updateRecentTransitionMood e w u sid m).2.users = e.users := by
  unfold updateRecentTransitionMood
  cases hlast : u.story_sequences.getLast? with
  | none => exact ⟨hg, rfl⟩
  | some lastT =>
    dsimp only
    by_cases hcond : lastT.to_story_id = sid ∧ lastT.mood_after = none
    · rw [if_pos hcond]
      cases hmb : lastT.mood_before with
      | some mb =>
        exfalso
        have := hg.2 lastT (getLast?_mem' hlast) hcond.2
        rw [this] at hmb
        cases hmb
      | none =>
        dsimp only
        constructor
        · constructor
          · exact hg.1
          · intro t' ht' hma
            rcases List.mem_map.mp ht' with ⟨t0, ht0, hpt⟩
            subst hpt
            unfold patchT at hma ⊢
            by_cases htid : t0.tid = lastT.tid
            · rw [if_pos htid] at hma
              cases hma
            · rw [if_neg htid] at hma ⊢
              exact hg.2 t0 ht0 hma
        · rfl
    · rw [if_neg hcond]
      exact ⟨hg, rfl⟩

theorem updateRecentTransitionMood_users (e : Engine) (w : ℚ)
    (u : UserProfile) (sid : String) (m : ℚ) :
    (updateRecentTransitionMood e w u sid m).2.users = e.users := by
  unfold updateRecentTransitionMood
  cases u.story_sequences.getLast? with
  | none => rfl
  | some lastT =>
    dsimp only
    split
    · cases lastT.mood_before with
      | some mb =>
        dsimp only
        rw [updateStoryTransitionStats_users]
      | none => rfl
    · rfl

theorem writeUser_story_transitions (e : Engine) (uid : String)
    (u : UserProfile) : (writeUser e uid u).story_transitions =
      e.story_transitions := rfl

theorem goodProfile_setMood (u : UserProfile) (m ts : ℚ)
    (hseq : ∀ t ∈ u.story_sequences,
      t.mood_after = none → t.mood_before = none) :
    GoodProfile (updateMoodTrajectory
      { u with
          current_mood := some m
          mood_history := u.mood_history ++ [(ts, m)] }) := by
  constructor
  · rw [updateMoodTrajectory_current_mood]
    intro hc
    simp at hc
  · rw [updateMoodTrajectory_story_sequences]
    exact hseq

theorem goodProfile_record3 (e : Engine) (w : ℚ) (u : UserProfile)
    (fid sid sid2 : String) (ts tbm ts2 : ℚ)
    (h1 : u.current_mood = none → u.mood_history = [])
    (h2 : ∀ t ∈ u.story_sequences,
      t.mood_after = none → t.mood_before = none) :
    GoodProfile
      { (recordStoryTransition e w u fid sid ts tbm).1 with
          last_completed_story := some sid2
          last_completed_timestamp := some ts2 } := by
  have hg := @goodProfile_record e w u fid sid ts tbm ⟨h1, h2⟩
  exact ⟨hg.1, hg.2⟩

theorem invCore_moodafter_shape {eng ebase : Engine} {w : ℚ}
    {u' : UserProfile} {uid sid : String} {m ts : ℚ}
    (hbase : InvCore ebase) (husers : eng.users = ebase.users)
    (hg1 : u'.current_mood = none → u'.mood_history = [])
    (hg2 : ∀ t ∈ u'.story_sequences,
      t.mood_after = none → t.mood_before = none) :
    InvCore (writeUser (updateRecentTransitionMood eng w u' sid m).2 uid
      (updateMoodTrajectory
        { (updateRecentTransitionMood eng w u' sid m).1 with
            current_mood := some m
            mood_history :=
              (updateRecentTransitionMood eng w u' sid m).1.mood_history ++
                [(ts, m)] })) := by
  have hgood := updateRecentTransitionMood_good eng w u' sid m ⟨hg1, hg2⟩
  refine invCore_writeUser uid _
    (invCore_users_eq
      ((updateRecentTransitionMood_users eng w u' sid m).trans husers) hbase)
    ?_
  exact goodProfile_setMood _ m ts hgood.1.2

theorem invCore_addEvent (e : Engine) (w : ℚ) (ev : AnalyticsEvent)
    (h : InvCore e) : InvCore (addEvent e w ev).1 := by
  have hfetch := goodProfile_ingestFetch ev h
  have hbase := invCore_ingestBase ev h
  unfold addEvent
  dsimp only
  repeat' split
  all_goals first
    | exact hbase
    | (refine invCore_writeUser _ _ hbase ?_; exact ⟨hfetch.1, hfetch.2⟩)
    | (refine invCore_writeUser _ _ hbase (goodProfile_setMood _ _ _ ?_);
        exact hfetch.2)
    | (refine invCore_writeUser _ _
          (invCore_users_eq (recordStoryTransition_users _ _ _ _ _ _ _) hbase)
          (goodProfile_record3 _ _ _ _ _ _ _ _ _ ?_ ?_);
        exacts [hfetch.1, hfetch.2])
    | (refine invCore_moodafter_shape hbase ?_ ?_ ?_;
        exacts [rfl, hfetch.1, hfetch.2])
    | (refine invCore_moodafter_shape hbase ?_ ?_ ?_;
        exacts [updateStoryMoodStats_users _ _ _, hfetch.1, hfetch.2])

theorem invCore_addStory (e : Engine) (sid title theme : String)
    (tags : List String) (h : InvCore e) :
    InvCore (addStory e sid title theme tags) := h

theorem invCore_emptyEngine : InvCore emptyEngine := by
  intro p hp
  simp [emptyEngine] at hp

theorem invCore_foldl (ops : List Op) :
    ∀ e : Engine, InvCore e → InvCore (ops.foldl applyOp e) := by
  induction ops with
  | nil => intro e h; exact h
  | cons op rest ih =>
    intro e h
    rw [List.foldl_cons]
    refine ih _ ?_
    cases op with
    | story sid title theme tags => exact invCore_addStory e sid title theme tags h
    | event w ev => exact invCore_addEvent e w ev h

theorem invCore_runOps (ops : List Op) : InvCore (runOps ops) :=
  invCore_foldl ops emptyEngine invCore_emptyEngine

theorem urtm_wud (e0 : Engine) (w : ℚ) (u' u2 : UserProfile)
    (uid sid : String) (m : ℚ)
    (hg : ∀ t ∈ u'.story_sequences,
      t.mood_after = none → t.mood_before = none) :
    ((writeUser (updateRecentTransitionMood e0 w u' sid m).2 uid
        u2).story_transitions.map (fun t => t.mood_delta)) =
      e0.story_transitions.map (fun t => t.mood_delta) := by
  rw [writeUser_story_transitions]
  unfold updateRecentTransitionMood
  cases hlast : u'.story_sequences.getLast? with
  | none => rfl
  | some lastT =>
    dsimp only
    by_cases hcond : lastT.to_story_id = sid ∧ lastT.mood_after = none
    · rw [if_pos hcond]
      cases hmb : lastT.mood_before with
      | some mb =>
        exfalso
        have := hg lastT (getLast?_mem' hlast) hcond.2
        rw [this] at hmb
        cases hmb
      | none =>
        dsimp only
        rw [List.map_map]
        apply List.map_congr_left
        intro t _
        exact patchT_mood_delta_none _ _ _
    · rw [if_neg hcond]

/-- C2 (corrected): in every reachable state (any operation sequence from
the fresh engine) a `mood_after` event never changes any stored
transition's `mood_delta` — the spec's backfill-sets-the-delta rule is
dead code, because transition creation pre-fills `mood_after` from the
current mood whenever a `mood_before` exists, so the backfill only ever
reaches transitions whose `mood_before` is null, where no delta can be
computed (see the counterexample for the spec's concrete scenario). -/
theorem c2_mood_after_never_alters_delta (ops : List Op) (w : ℚ)
    (ev : AnalyticsEvent) (htype : ev.event_type = "mood_after") :
    (addEvent (runOps ops) w ev).1.story_transitions.map
        (fun t => t.mood_delta) =
      (runOps ops).story_transitions.map (fun t => t.mood_delta) := by
  obtain ⟨uid, ty, ts, data⟩ := ev
  obtain ⟨sidO, msO, thO, posO⟩ := data
  dsimp only at htype
  subst htype
  have hfetch := goodProfile_ingestFetch
    (⟨uid, "mood_after", ts, ⟨sidO, msO, thO, posO⟩⟩ : AnalyticsEvent)
    (invCore_runOps ops)
  unfold addEvent
  dsimp only
  repeat' split
  all_goals first
    | (exfalso; simp_all; done)
    | (dsimp only; rw [ingestBase_story_transitions]; done)
    | (dsimp only; rw [writeUser_story_transitions, ingestBase_story_transitions]
       done)
    | (dsimp only
       refine Eq.trans (urtm_wud _ _ _ _ _ _ _ ?_) ?_
       · exact hfetch.2
       · rw [ingestBase_story_transitions])
    | (dsimp only
       refine Eq.trans (urtm_wud _ _ _ _ _ _ _ ?_) ?_
       · exact hfetch.2
       · rw [updateStoryMoodStats_story_transitions]
         try dsimp only
         rw [ingestBase_story_transitions])

/-- Closed witness for `c2_mood_after_never_alters_delta`: the spec's own
scenario — mood 6, complete "A", complete "B" within the window — then
the `mood_after 7.5` event for "B": the stored deltas are unchanged. -/
theorem c2_mood_after_never_alters_delta_witness :
    (evMA "u" "B" 960 7.5).event_type = "mood_after" ∧
      (addEvent (runOps witC2Ops) 0
            (evMA "u" "B" 960 7.5)).1.story_transitions.map
          (fun t => t.mood_delta) =
        (runOps witC2Ops).story_transitions.map (fun t => t.mood_delta) :=
  ⟨rfl, c2_mood_after_never_alters_delta witC2Ops 0 (evMA "u" "B" 960 7.5) rfl⟩

/-! ### C3 — persistence round trip: data lemmas -/

theorem rebuildPreferred_factor (l : List StoryTransition) :
    rebuildPreferred l =
      rebuildPreferredData (l.map StoryTransition.toData) := by
  unfold rebuildPreferred rebuildPreferredData
  rw [List.foldl_map]
  rfl

theorem rebuildTheme_factor (S : List (String × Story))
    (l : List StoryTransition) :
    rebuildTheme S l = rebuildThemeData S (l.map StoryTransition.toData) := by
  unfold rebuildTheme rebuildThemeData
  rw [List.foldl_map]
  rfl

theorem apush_map_val {β γ : Type} (f : β → γ) (l : List (String × List β))
    (k : String) (v : β) :
    (apush l k v).map (fun q => (q.1, q.2.map f)) =
      apush (l.map (fun q => (q.1, q.2.map f))) k (f v) := by
  induction l with
  | nil => rfl
  | cons x rest ih =>
    dsimp only [apush, List.map_cons]
    by_cases hk : x.1 = k
    · rw [if_pos hk, if_pos hk]
      simp [List.map_append]
    · rw [if_neg hk, if_neg hk]
      rw [List.map_cons, ih]

theorem apush2_map_val {β γ : Type} (f : β → γ)
    (l : List (String × List (String × List β))) (k1 k2 : String) (v : β) :
    (apush2 l k1 k2 v).map
        (fun p => (p.1, p.2.map (fun q => (q.1, q.2.map f)))) =
      apush2 (l.map (fun p => (p.1, p.2.map (fun q => (q.1, q.2.map f)))))
        k1 k2 (f v) := by
  induction l with
  | nil => rfl
  | cons x rest ih =>
    dsimp only [apush2, List.map_cons]
    by_cases hk : x.1 = k1
    · rw [if_pos hk, if_pos hk]
      rw [List.map_cons, apush_map_val]
    · rw [if_neg hk, if_neg hk]
      rw [List.map_cons, ih]

theorem gmap_apush2 (f : StoryTransition → StoryTransition)
    (g : List (String × List (String × List StoryTransition)))
    (k1 k2 : String) (t : StoryTransition) :
    gmap f (apush2 g k1 k2 t) = apush2 (gmap f g) k1 k2 (f t) :=
  apush2_map_val f g k1 k2 t

theorem graphData_apush2
    (g : List (String × List (String × List StoryTransition)))
    (k1 k2 : String) (t : StoryTransition) :
    graphData (apush2 g k1 k2 t) =
      apush2 (graphData g) k1 k2 t.toData :=
  apush2_map_val StoryTransition.toData g k1 k2 t

theorem rebuildGraph_map_pres (f : StoryTransition → StoryTransition)
    (hfrom : ∀ t, (f t).from_story_id = t.from_story_id)
    (hto : ∀ t, (f t).to_story_id = t.to_story_id) :
    ∀ (l : List StoryTransition)
      (g : List (String × List (String × List StoryTransition))),
      (l.map f).foldl graphPush (gmap f g) = gmap f (l.foldl graphPush g) := by
  intro l
  induction l with
  | nil => intro g; rfl
  | cons t rest ih =>
    intro g
    rw [List.map_cons, List.foldl_cons, List.foldl_cons]
    have hstep : graphPush (gmap f g) (f t) = gmap f (graphPush g t) := by
      unfold graphPush
      rw [hfrom, hto, gmap_apush2]
    rw [hstep, ih]

theorem rebuildGraph_map (f : StoryTransition → StoryTransition)
    (hfrom : ∀ t, (f t).from_story_id = t.from_story_id)
    (hto : ∀ t, (f t).to_story_id = t.to_story_id)
    (l : List StoryTransition) :
    rebuildGraph (l.map f) = gmap f (rebuildGraph l) :=
  rebuildGraph_map_pres f hfrom hto l []

theorem graphData_rebuild_pres :
    ∀ (l : List StoryTransition)
      (g : List (String × List (String × List StoryTransition))),
      graphData (l.foldl graphPush g) =
        (l.map StoryTransition.toData).foldl
          (fun a d => apush2 a d.from_story_id d.to_story_id d)
          (graphData g) := by
  intro l
  induction l with
  | nil => intro g; rfl
  | cons t rest ih =>
    intro g
    rw [List.map_cons, List.foldl_cons, List.foldl_cons,
      show graphPush g t = apush2 g t.from_story_id t.to_story_id t from rfl,
      ih, graphData_apush2]
    rfl

theorem graphData_rebuildGraph (l : List StoryTransition) :
    graphData (rebuildGraph l) =
      rebuildGraphData (l.map StoryTransition.toData) :=
  graphData_rebuild_pres l []

theorem foldlP_map (f : StoryTransition → StoryTransition)
    (hfrom : ∀ t, (f t).from_story_id = t.from_story_id)
    (hto : ∀ t, (f t).to_story_id = t.to_story_id)
    (hdelta : ∀ t, (f t).mood_delta = t.mood_delta)
    (hts : ∀ t, (f t).timestamp = t.timestamp) :
    ∀ (l : List StoryTransition)
      (acc : List (String × List (String × Option ℚ × ℚ))),
      (l.map f).foldl
          (fun m t =>
            apush m t.from_story_id (t.to_story_id, t.mood_delta, t.timestamp))
          acc =
        l.foldl
          (fun m t =>
            apush m t.from_story_id (t.to_story_id, t.mood_delta, t.timestamp))
          acc := by
  intro l
  induction l with
  | nil => intro acc; rfl
  | cons t rest ih =>
    intro acc
    rw [List.map_cons, List.foldl_cons, List.foldl_cons, hfrom, hto, hdelta,
      hts]
    exact ih _

theorem rebuildPreferred_map (f : StoryTransition → StoryTransition)
    (hfrom : ∀ t, (f t).from_story_id = t.from_story_id)
    (hto : ∀ t, (f t).to_story_id = t.to_story_id)
    (hdelta : ∀ t, (f t).mood_delta = t.mood_delta)
    (hts : ∀ t, (f t).timestamp = t.timestamp)
    (l : List StoryTransition) :
    rebuildPreferred (l.map f) = rebuildPreferred l :=
  foldlP_map f hfrom hto hdelta hts l []

theorem foldlT_map (S' S : List (String × Story))
    (f : StoryTransition → StoryTransition)
    (hS : ∀ k, (alook S' k).map Story.theme = (alook S k).map Story.theme)
    (hfrom : ∀ t, (f t).from_story_id = t.from_story_id)
    (hto : ∀ t, (f t).to_story_id = t.to_story_id)
    (hdelta : ∀ t, (f t).mood_delta = t.mood_delta)
    (hts : ∀ t, (f t).timestamp = t.timestamp) :
    ∀ (l : List StoryTransition)
      (acc : List (String × List (String × List (ℚ × ℚ)))),
      (l.map f).foldl
          (fun m t =>
            match alook S' t.from_story_id, alook S' t.to_story_id with
            | some fs, some tos =>
              match t.mood_delta with
              | some d => apush2 m fs.theme tos.theme (d, t.timestamp)
              | none => m
            | _, _ => m)
          acc =
        l.foldl
          (fun m t =>
            match alook S t.from_story_id, alook S t.to_story_id with
            | some fs, some tos =>
              match t.mood_delta with
              | some d => apush2 m fs.theme tos.theme (d, t.timestamp)
              | none => m
            | _, _ => m)
          acc := by
  intro l
  induction l with
  | nil => intro acc; rfl
  | cons t rest ih =>
    intro acc
    rw [List.map_cons, List.foldl_cons, List.foldl_cons]
    rw [ih]
    congr 1
    dsimp only
    rw [hfrom, hto, hdelta, hts]
    have h1 := hS t.from_story_id
    have h2 := hS t.to_story_id
    cases hf : alook S t.from_story_id with
    | none =>
      rw [hf, Option.map_none'] at h1
      rw [Option.map_eq_none'.mp h1]
    | some fs =>
      rw [hf, Option.map_some'] at h1
      obtain ⟨fs', hfs', hth⟩ := Option.map_eq_some'.mp h1
      rw [hfs']
      cases ht : alook S t.to_story_id with
      | none =>
        rw [ht, Option.map_none'] at h2
        rw [Option.map_eq_none'.mp h2]
      | some tos =>
        rw [ht, Option.map_some'] at h2
        obtain ⟨tos', htos', hth2⟩ := Option.map_eq_some'.mp h2
        rw [htos']
        cases t.mood_delta with
        | none => rfl
        | some d =>
          dsimp only
          rw [hth, hth2]

theorem rebuildTheme_congr (S' S : List (String × Story))
    (f : StoryTransition → StoryTransition)
    (hS : ∀ k, (alook S' k).map Story.theme = (alook S k).map Story.theme)
    (hfrom : ∀ t, (f t).from_story_id = t.from_story_id)
    (hto : ∀ t, (f t).to_story_id = t.to_story_id)
    (hdelta : ∀ t, (f t).mood_delta = t.mood_delta)
    (hts : ∀ t, (f t).timestamp = t.timestamp)
    (l : List StoryTransition) :
    rebuildTheme S' (l.map f) = rebuildTheme S l :=
  foldlT_map S' S f hS hfrom hto hdelta hts l []

theorem rebuildTheme_catalog (S' S : List (String × Story))
    (hS : ∀ k, (alook S' k).map Story.theme = (alook S k).map Story.theme)
    (l : List StoryTransition) :
    rebuildTheme S' l = rebuildTheme S l := by
  have h := rebuildTheme_congr S' S id hS (fun _ => rfl) (fun _ => rfl)
    (fun _ => rfl) (fun _ => rfl) l
  rwa [List.map_id] at h

theorem patchT_from (k : ℕ) (m : ℚ) (nd : Option ℚ) (t : StoryTransition) :
    (patchT k m nd t).from_story_id = t.from_story_id := by
  unfold patchT; split <;> rfl

theorem patchT_to (k : ℕ) (m : ℚ) (nd : Option ℚ) (t : StoryTransition) :
    (patchT k m nd t).to_story_id = t.to_story_id := by
  unfold patchT; split <;> rfl

theorem patchT_timestamp (k : ℕ) (m : ℚ) (nd : Option ℚ)
    (t : StoryTransition) : (patchT k m nd t).timestamp = t.timestamp := by
  unfold patchT; split <;> rfl

theorem patchT_mood_before (k : ℕ) (m : ℚ) (nd : Option ℚ)
    (t : StoryTransition) : (patchT k m nd t).mood_before = t.mood_before := by
  unfold patchT; split <;> rfl

theorem reloadData_eq (d : TransitionData) (hb : d.mood_before ≠ some 0)
    (ha : d.mood_after ≠ some 0) : reloadData d = d := by
  unfold reloadData
  have hmb : (match d.mood_before with
      | some v => if v = 0 then none else some v
      | none => none) = d.mood_before := by
    cases hv : d.mood_before with
    | none => rfl
    | some v =>
      rw [hv] at hb
      dsimp only
      rw [if_neg (fun h => hb (by rw [h]))]
  have hma : (match d.mood_after with
      | some v => if v = 0 then none else some v
      | none => none) = d.mood_after := by
    cases hv : d.mood_after with
    | none => rfl
    | some v =>
      rw [hv] at ha
      dsimp only
      rw [if_neg (fun h => ha (by rw [h]))]
  rw [hmb, hma]

theorem toData_load (i : ℕ) (d : TransitionData) :
    (loadTransition i d).toData = reloadData d := rfl

theorem updateMoodTrajectory_preferred (u : UserProfile) :
    (updateMoodTrajectory u).preferred_transitions =
      u.preferred_transitions := by
  unfold updateMoodTrajectory; split <;> rfl

theorem updateMoodTrajectory_theme (u : UserProfile) :
    (updateMoodTrajectory u).theme_transition_preferences =
      u.theme_transition_preferences := by
  unfold updateMoodTrajectory; split <;> rfl

theorem updateStoryTransitionStats_graph (e : Engine) (w : ℚ)
    (fid : String) :
    (updateStoryTransitionStats e w fid).global_transition_graph =
      e.global_transition_graph := by
  unfold updateStoryTransitionStats; split <;> rfl

theorem updateStoryMoodStats_graph (e : Engine) (w : ℚ) (sid : String) :
    (updateStoryMoodStats e w sid).global_transition_graph =
      e.global_transition_graph := by
  unfold updateStoryMoodStats
  split
  · rfl
  · split <;> rfl

theorem cme_theme (a b : ℚ) (st : Story) :
    (calculateMoodEffectiveness a b st).theme = st.theme := by
  unfold calculateMoodEffectiveness; split <;> rfl

theorem themeEq_aupdate (sid : String) (f : Story → Story) :
    ∀ (S : List (String × Story)),
      (∀ v, alook S sid = some v → (f v).theme = v.theme) →
      ∀ k, (alook (aupdate S sid f) k).map Story.theme =
        (alook S k).map Story.theme := by
  intro S
  induction S with
  | nil => intro _ k; rfl
  | cons x rest ih =>
    intro h k
    obtain ⟨k', v'⟩ := x
    dsimp only [aupdate]
    by_cases hsid : k' = sid
    · rw [if_pos hsid]
      dsimp only [alook]
      by_cases hk : k' = k
      · rw [if_pos hk, if_pos hk]
        have hv : alook ((k', v') :: rest) sid = some v' := by
          dsimp only [alook]; rw [if_pos hsid]
        rw [Option.map_some', Option.map_some', h v' hv]
      · rw [if_neg hk, if_neg hk]
    · rw [if_neg hsid]
      dsimp only [alook]
      by_cases hk : k' = k
      · rw [if_pos hk, if_pos hk]
      · rw [if_neg hk, if_neg hk]
        refine ih (fun v hv => h v ?_) k
        dsimp only [alook]
        rw [if_neg hsid]
        exact hv

theorem themeEq_sts (e : Engine) (w : ℚ) (fid : String) :
    ∀ k, (alook (updateStoryTransitionStats e w fid).stories k).map
        Story.theme =
      (alook e.stories k).map Story.theme := by
  intro k
  unfold updateStoryTransitionStats
  split
  · rfl
  · dsimp only
    refine themeEq_aupdate fid _ e.stories ?_ k
    intro v hv
    rfl

theorem themeEq_usms (e : Engine) (w : ℚ) (sid : String) :
    ∀ k, (alook (updateStoryMoodStats e w sid).stories k).map Story.theme =
      (alook e.stories k).map Story.theme := by
  intro k
  unfold updateStoryMoodStats
  split
  · rfl
  · rename_i st hst
    split
    · rfl
    · dsimp only
      refine themeEq_aupdate sid _ e.stories ?_ k
      intro v hv
      rw [hst] at hv
      cases hv
      rw [cme_theme]

theorem rebuildPreferred_append (l : List StoryTransition)
    (t : StoryTransition) :
    rebuildPreferred (l ++ [t]) =
      apush (rebuildPreferred l) t.from_story_id
        (t.to_story_id, t.mood_delta, t.timestamp) := by
  unfold rebuildPreferred
  rw [List.foldl_append]
  rfl

theorem rebuildGraph_append (l : List StoryTransition) (t : StoryTransition) :
    rebuildGraph (l ++ [t]) = graphPush (rebuildGraph l) t := by
  unfold rebuildGraph
  rw [List.foldl_append]
  rfl

theorem rebuildTheme_append (S : List (String × Story))
    (l : List StoryTransition) (t : StoryTransition) :
    rebuildTheme S (l ++ [t]) =
      match alook S t.from_story_id, alook S t.to_story_id with
      | some fs, some tos =>
        match t.mood_delta with
        | some d =>
          apush2 (rebuildTheme S l) fs.theme tos.theme (d, t.timestamp)
        | none => rebuildTheme S l
      | _, _ => rebuildTheme S l := by
  unfold rebuildTheme
  rw [List.foldl_append]
  rfl

theorem idxFetch {e : Engine} (ev : AnalyticsEvent) (h : IdxInv e) :
    ((alook (ingestBase e ev).users ev.user_id).getD
        (emptyProfile ev.user_id)).preferred_transitions =
      rebuildPreferred ((alook (ingestBase e ev).users ev.user_id).getD
        (emptyProfile ev.user_id)).story_sequences ∧
    ((alook (ingestBase e ev).users ev.user_id).getD
        (emptyProfile ev.user_id)).theme_transition_preferences =
      rebuildTheme e.stories ((alook (ingestBase e ev).users
        ev.user_id).getD (emptyProfile ev.user_id)).story_sequences := by
  cases hal : alook (ingestBase e ev).users ev.user_id with
  | none => exact ⟨rfl, rfl⟩
  | some v =>
    simp only [Option.getD_some]
    have hv := alook_mem hal
    rcases ingestBase_users_shape e ev with heq | heq
    · rw [heq] at hv
      exact h.2 _ hv
    · rw [heq] at hv
      rcases List.mem_append.mp hv with h1 | h1
      · exact h.2 _ h1
      · have hv2 : v = emptyProfile ev.user_id :=
          congrArg Prod.snd (List.mem_singleton.mp h1)
        rw [hv2]
        exact ⟨rfl, rfl⟩

theorem gmFetch {e : Engine} (ev : AnalyticsEvent) (h : GoodMoods e) :
    (∀ q ∈ ((alook (ingestBase e ev).users ev.user_id).getD
        (emptyProfile ev.user_id)).mood_history, q.2 ≠ (0 : ℚ)) ∧
    (∀ m, ((alook (ingestBase e ev).users ev.user_id).getD
        (emptyProfile ev.user_id)).current_mood = some m → m ≠ 0) ∧
    (∀ t ∈ ((alook (ingestBase e ev).users ev.user_id).getD
        (emptyProfile ev.user_id)).story_sequences,
      t.mood_before ≠ some 0 ∧ t.mood_after ≠ some 0) := by
  cases hal : alook (ingestBase e ev).users ev.user_id with
  | none =>
    exact ⟨fun q hq => (nomatch hq), fun m hm => (nomatch hm),
      fun t ht => (nomatch ht)⟩
  | some v =>
    simp only [Option.getD_some]
    have hv := alook_mem hal
    rcases ingestBase_users_shape e ev with heq | heq
    · rw [heq] at hv
      exact h.1 _ hv
    · rw [heq] at hv
      rcases List.mem_append.mp hv with h1 | h1
      · exact h.1 _ h1
      · have hv2 : v = emptyProfile ev.user_id :=
          congrArg Prod.snd (List.mem_singleton.mp h1)
        rw [hv2]
        exact ⟨fun q hq => (nomatch hq), fun m hm => (nomatch hm),
          fun t ht => (nomatch ht)⟩

theorem idxInv_ingestBase {e : Engine} (ev : AnalyticsEvent)
    (h : IdxInv e) : IdxInv (ingestBase e ev) := by
  constructor
  · rw [ingestBase_graph, ingestBase_story_transitions]
    exact h.1
  · intro p hp
    have hst := ingestBase_stories e ev
    rw [hst]
    rcases ingestBase_users_shape e ev with heq | heq
    · rw [heq] at hp
      exact h.2 p hp
    · rw [heq] at hp
      rcases List.mem_append.mp hp with h1 | h1
      · exact h.2 p h1
      · rw [List.mem_singleton.mp h1]
        exact ⟨rfl, rfl⟩

theorem goodMoods_ingestBase {e : Engine} (ev : AnalyticsEvent)
    (h : GoodMoods e) : GoodMoods (ingestBase e ev) := by
  constructor
  · intro p hp
    rcases ingestBase_users_shape e ev with heq | heq
    · rw [heq] at hp
      exact h.1 p hp
    · rw [heq] at hp
      rcases List.mem_append.mp hp with h1 | h1
      · exact h.1 p h1
      · rw [List.mem_singleton.mp h1]
        exact ⟨fun q hq => (nomatch hq), fun m hm => (nomatch hm),
          fun t ht => (nomatch ht)⟩
  · rw [ingestBase_story_transitions]
    exact h.2

theorem writeUser_graph (e : Engine) (uid : String) (u : UserProfile) :
    (writeUser e uid u).global_transition_graph =
      e.global_transition_graph := rfl

theorem writeUser_stories (e : Engine) (uid : String) (u : UserProfile) :
    (writeUser e uid u).stories = e.stories := rfl

theorem ingest_graph_clause {e : Engine} (ev : AnalyticsEvent)
    (h : IdxInv e) :
    (ingestBase e ev).global_transition_graph =
      rebuildGraph (ingestBase e ev).story_transitions := by
  rw [ingestBase_graph, ingestBase_story_transitions]
  exact h.1

theorem ingest_users_clause {e : Engine} (ev : AnalyticsEvent)
    (h : IdxInv e) :
    ∀ p ∈ (ingestBase e ev).users,
      p.2.preferred_transitions = rebuildPreferred p.2.story_sequences ∧
      p.2.theme_transition_preferences =
        rebuildTheme e.stories p.2.story_sequences := by
  intro p hp
  rcases ingestBase_users_shape e ev with heq | heq
  · rw [heq] at hp
    exact h.2 p hp
  · rw [heq] at hp
    rcases List.mem_append.mp hp with h1 | h1
    · exact h.2 p h1
    · rw [List.mem_singleton.mp h1]
      exact ⟨rfl, rfl⟩

theorem rst_eng (E : Engine) (w : ℚ) (u : UserProfile) (fid sid : String)
    (ts tbm : ℚ) :
    (recordStoryTransition E w u fid sid ts tbm).2 =
      updateStoryTransitionStats
        { E with
            story_transitions := E.story_transitions ++
              [mkTransition E.next_tid fid sid u.user_id ts
                (match u.last_completed_timestamp with
                 | some lct =>
                   ((u.mood_history.reverse).find?
                     (fun p => decide (p.1 ≤ lct))).map (fun p => p.2)
                 | none => none)
                u.current_mood tbm]
            global_transition_graph := graphPush E.global_transition_graph
              (mkTransition E.next_tid fid sid u.user_id ts
                (match u.last_completed_timestamp with
                 | some lct =>
                   ((u.mood_history.reverse).find?
                     (fun p => decide (p.1 ≤ lct))).map (fun p => p.2)
                 | none => none)
                u.current_mood tbm)
            next_tid := E.next_tid + 1 }
        w fid := rfl

theorem rst_seqs (E : Engine) (w : ℚ) (u : UserProfile) (fid sid : String)
    (ts tbm : ℚ) :
    (recordStoryTransition E w u fid sid ts tbm).1.story_sequences =
      u.story_sequences ++
        [mkTransition E.next_tid fid sid u.user_id ts
          (match u.last_completed_timestamp with
           | some lct =>
             ((u.mood_history.reverse).find?
               (fun p => decide (p.1 ≤ lct))).map (fun p => p.2)
           | none => none)
          u.current_mood tbm] := by
  unfold recordStoryTransition
  dsimp only
  split <;> (try split) <;> rfl

theorem rst_pref (E : Engine) (w : ℚ) (u : UserProfile) (fid sid : String)
    (ts tbm : ℚ) :
    (recordStoryTransition E w u fid sid ts tbm).1.preferred_transitions =
      apush u.preferred_transitions fid
        (sid,
          (mkTransition E.next_tid fid sid u.user_id ts
            (match u.last_completed_timestamp with
             | some lct =>
               ((u.mood_history.reverse).find?
                 (fun p => decide (p.1 ≤ lct))).map (fun p => p.2)
             | none => none)
            u.current_mood tbm).mood_delta,
          ts) := by
  unfold recordStoryTransition
  dsimp only
  split <;> (try split) <;> rfl

theorem rst_them (E : Engine) (w : ℚ) (u : UserProfile) (fid sid : String)
    (ts tbm : ℚ)
    (hthem : u.theme_transition_preferences =
      rebuildTheme E.stories u.story_sequences) :
    (recordStoryTransition E w u fid sid ts
        tbm).1.theme_transition_preferences =
      rebuildTheme E.stories (u.story_sequences ++
        [mkTransition E.next_tid fid sid u.user_id ts
          (match u.last_completed_timestamp with
           | some lct =>
             ((u.mood_history.reverse).find?
               (fun p => decide (p.1 ≤ lct))).map (fun p => p.2)
           | none => none)
          u.current_mood tbm]) := by
  rw [rebuildTheme_append]
  unfold recordStoryTransition
  dsimp only [mkTransition]
  repeat' split
  all_goals first
    | exact hthem
    | simp_all

theorem idxInv_write_setmood {EC : Engine} (S : List (String × Story))
    (uid : String) (u1 : UserProfile) (m ts2 : ℚ)
    (hgraph : EC.global_transition_graph =
      rebuildGraph EC.story_transitions)
    (husers : ∀ p ∈ EC.users,
      p.2.preferred_transitions = rebuildPreferred p.2.story_sequences ∧
      p.2.theme_transition_preferences =
        rebuildTheme S p.2.story_sequences)
    (hSC : ∀ k, (alook EC.stories k).map Story.theme =
      (alook S k).map Story.theme)
    (hpref1 : u1.preferred_transitions =
      rebuildPreferred u1.story_sequences)
    (hthem1 : u1.theme_transition_preferences =
      rebuildTheme S u1.story_sequences) :
    IdxInv (writeUser EC uid (updateMoodTrajectory
      { u1 with
          current_mood := some m
          mood_history := u1.mood_history ++ [(ts2, m)] })) := by
  constructor
  · exact hgraph
  · intro p hp
    rcases mem_aupsert hp with h1 | h1
    · rw [h1]
      constructor
      · rw [updateMoodTrajectory_preferred,
          updateMoodTrajectory_story_sequences]
        exact hpref1
      · rw [updateMoodTrajectory_theme, updateMoodTrajectory_story_sequences,
          writeUser_stories, rebuildTheme_catalog EC.stories S hSC]
        exact hthem1
    · have h2 := husers p h1
      rw [writeUser_stories]
      refine ⟨h2.1, ?_⟩
      rw [rebuildTheme_catalog EC.stories S hSC]
      exact h2.2

theorem idxInv_moodafter {EC : Engine} (S : List (String × Story)) {w : ℚ}
    {u' : UserProfile} {uid sid : String} {m ts2 : ℚ}
    (hgraph : EC.global_transition_graph =
      rebuildGraph EC.story_transitions)
    (husers : ∀ p ∈ EC.users,
      p.2.preferred_transitions = rebuildPreferred p.2.story_sequences ∧
      p.2.theme_transition_preferences =
        rebuildTheme S p.2.story_sequences)
    (hSC : ∀ k, (alook EC.stories k).map Story.theme =
      (alook S k).map Story.theme)
    (hgood : ∀ t ∈ u'.story_sequences,
      t.mood_after = none → t.mood_before = none)
    (hprefU : u'.preferred_transitions =
      rebuildPreferred u'.story_sequences)
    (hthemU : u'.theme_transition_preferences =
      rebuildTheme S u'.story_sequences) :
    IdxInv (writeUser (updateRecentTransitionMood EC w u' sid m).2 uid
      (updateMoodTrajectory
        { (updateRecentTransitionMood EC w u' sid m).1 with
            current_mood := some m
            mood_history :=
              (updateRecentTransitionMood EC w u' sid m).1.mood_history ++
                [(ts2, m)] })) := by
  unfold updateRecentTransitionMood
  cases hlast : u'.story_sequences.getLast? with
  | none =>
    dsimp only
    exact idxInv_write_setmood S uid u' m ts2 hgraph husers hSC hprefU hthemU
  | some lastT =>
    dsimp only
    by_cases hcond : lastT.to_story_id = sid ∧ lastT.mood_after = none
    · rw [if_pos hcond]
      cases hmb : lastT.mood_before with
      | some mb =>
        exfalso
        have := hgood lastT (getLast?_mem' hlast) hcond.2
        rw [this] at hmb
        cases hmb
      | none =>
        dsimp only
        refine idxInv_write_setmood S uid
          { u' with story_sequences :=
              u'.story_sequences.map (patchT lastT.tid m none) }
          m ts2 ?_ ?_ ?_ ?_ ?_
        · dsimp only
          rw [rebuildGraph_map (patchT lastT.tid m none)
            (fun t => patchT_from _ _ _ t) (fun t => patchT_to _ _ _ t),
            hgraph]
        · intro p hp
          exact husers p hp
        · exact hSC
        · dsimp only
          rw [rebuildPreferred_map (patchT lastT.tid m none)
            (fun t => patchT_from _ _ _ t) (fun t => patchT_to _ _ _ t)
            (fun t => patchT_mood_delta_none _ _ t)
            (fun t => patchT_timestamp _ _ _ t)]
          exact hprefU
        · dsimp only
          rw [rebuildTheme_congr S S (patchT lastT.tid m none)
            (fun k => rfl)
            (fun t => patchT_from _ _ _ t) (fun t => patchT_to _ _ _ t)
            (fun t => patchT_mood_delta_none _ _ t)
            (fun t => patchT_timestamp _ _ _ t)]
          exact hthemU
    · rw [if_neg hcond]
      exact idxInv_write_setmood S uid u' m ts2 hgraph husers hSC hprefU hthemU

theorem idxInv_record {E : Engine} (w : ℚ) (u : UserProfile)
    (uid fid sid sid2 : String) (ts tbm ts2 : ℚ)
    (h : IdxInv E)
    (hpref : u.preferred_transitions = rebuildPreferred u.story_sequences)
    (hthem : u.theme_transition_preferences =
      rebuildTheme E.stories u.story_sequences) :
    IdxInv (writeUser (recordStoryTransition E w u fid sid ts tbm).2 uid
      { (recordStoryTransition E w u fid sid ts tbm).1 with
          last_completed_story := some sid2
          last_completed_timestamp := some ts2 }) := by
  constructor
  · rw [writeUser_graph, writeUser_story_transitions, rst_eng,
      updateStoryTransitionStats_graph,
      updateStoryTransitionStats_story_transitions]
    dsimp only
    rw [rebuildGraph_append, h.1]
  · intro p hp
    rcases mem_aupsert hp with h1 | h1
    · rw [h1]
      constructor
      · show (recordStoryTransition E w u fid sid ts
            tbm).1.preferred_transitions =
          rebuildPreferred
            (recordStoryTransition E w u fid sid ts tbm).1.story_sequences
        rw [rst_pref, rst_seqs, rebuildPreferred_append, hpref]
        rfl
      · show (recordStoryTransition E w u fid sid ts
            tbm).1.theme_transition_preferences =
          rebuildTheme
            (recordStoryTransition E w u fid sid ts tbm).2.stories
            (recordStoryTransition E w u fid sid ts tbm).1.story_sequences
        rw [rst_them E w u fid sid ts tbm hthem, rst_eng, rst_seqs,
          rebuildTheme_catalog _ _ (themeEq_sts _ w fid)]
    · rw [rst_eng, updateStoryTransitionStats_users] at h1
      have h2 := h.2 p h1
      constructor
      · exact h2.1
      · rw [writeUser_stories, rst_eng,
          rebuildTheme_catalog _ _ (themeEq_sts _ w fid)]
        exact h2.2

theorem themeEq_aupdate_chain {X : List (String × Story)} {sid k : String}
    (f : Story → Story) (hf : ∀ v, (f v).theme = v.theme)
    {R : Option String} (hX : (alook X k).map Story.theme = R) :
    (alook (aupdate X sid f) k).map Story.theme = R :=
  (themeEq_aupdate sid f X (fun v _ => hf v) k).trans hX

theorem idxInv_writeUser {E : Engine} (uid : String) (u' : UserProfile)
    (h : IdxInv E)
    (hpref : u'.preferred_transitions = rebuildPreferred u'.story_sequences)
    (hthem : u'.theme_transition_preferences =
      rebuildTheme E.stories u'.story_sequences) :
    IdxInv (writeUser E uid u') := by
  constructor
  · exact h.1
  · intro p hp
    rcases mem_aupsert hp with h1 | h1
    · rw [h1]
      exact ⟨hpref, hthem⟩
    · exact h.2 p h1

theorem idxInv_addEvent (e : Engine) (w : ℚ) (ev : AnalyticsEvent)
    (hc : InvCore e) (h : IdxInv e) : IdxInv (addEvent e w ev).1 := by
  have hidx := idxInv_ingestBase ev h
  have hfet := idxFetch ev h
  have hgp := goodProfile_ingestFetch ev hc
  unfold addEvent
  dsimp only
  repeat' split
  all_goals first
    | exact hidx
    | (refine idxInv_writeUser _ _ hidx ?_ ?_
       · exact hfet.1
       · rw [ingestBase_stories]; exact hfet.2)
    | (refine idxInv_record w _ _ _ _ _ _ _ _ hidx ?_ ?_
       · exact hfet.1
       · rw [ingestBase_stories]; exact hfet.2)
    | (refine idxInv_write_setmood e.stories _ _ _ _ ?_ ?_ ?_ ?_ ?_
       · exact ingest_graph_clause ev h
       · exact ingest_users_clause ev h
       · intro k; rw [ingestBase_stories]
       · exact hfet.1
       · exact hfet.2)
    | (refine idxInv_moodafter e.stories ?_ ?_ ?_ ?_ ?_ ?_
       · exact ingest_graph_clause ev h
       · exact ingest_users_clause ev h
       · intro k; rw [ingestBase_stories]
       · exact hgp.2
       · exact hfet.1
       · exact hfet.2)
    | (refine idxInv_moodafter e.stories ?_ ?_ ?_ ?_ ?_ ?_
       · rw [updateStoryMoodStats_graph, updateStoryMoodStats_story_transitions]
         try dsimp only
         exact ingest_graph_clause ev h
       · intro p hp
         rw [updateStoryMoodStats_users] at hp
         exact ingest_users_clause ev h p hp
       · intro k
         rw [themeEq_usms]
         try dsimp only
         refine themeEq_aupdate_chain _ ?_ ?_
         · intro v
           rfl
         · rw [ingestBase_stories]
       · exact hgp.2
       · exact hfet.1
       · exact hfet.2)

theorem patchT_mood_after_cases (k : ℕ) (m : ℚ) (nd : Option ℚ)
    (t : StoryTransition) :
    (patchT k m nd t).mood_after = some m ∨
      (patchT k m nd t).mood_after = t.mood_after := by
  unfold patchT
  split
  · exact Or.inl rfl
  · exact Or.inr rfl

theorem gm_map_patch {l : List StoryTransition} (k : ℕ) (m : ℚ)
    (nd : Option ℚ) (hm : m ≠ 0)
    (hl : ∀ t ∈ l, t.mood_before ≠ some 0 ∧ t.mood_after ≠ some 0) :
    ∀ t ∈ l.map (patchT k m nd),
      t.mood_before ≠ some 0 ∧ t.mood_after ≠ some 0 := by
  intro t ht
  rcases List.mem_map.mp ht with ⟨t0, ht0, rfl⟩
  constructor
  · rw [patchT_mood_before]
    exact (hl t0 ht0).1
  · rcases patchT_mood_after_cases k m nd t0 with hcs | hcs
    · rw [hcs]
      intro hx
      exact hm (Option.some.inj hx)
    · rw [hcs]
      exact (hl t0 ht0).2

theorem gm_mb_hist {u : UserProfile}
    (hh : ∀ q ∈ u.mood_history, q.2 ≠ (0 : ℚ)) :
    (match u.last_completed_timestamp with
     | some lct =>
       ((u.mood_history.reverse).find? (fun p => decide (p.1 ≤ lct))).map
         (fun p => p.2)
     | none => none) ≠ some 0 := by
  cases hl : u.last_completed_timestamp with
  | none => exact fun hx => (nomatch hx)
  | some lct =>
    dsimp only
    intro hx
    rcases Option.map_eq_some'.mp hx with ⟨q, hq, hq2⟩
    exact hh q (List.mem_reverse.mp (List.mem_of_find?_eq_some hq)) hq2

theorem rst_hist (E : Engine) (w : ℚ) (u : UserProfile) (fid sid : String)
    (ts tbm : ℚ) :
    (recordStoryTransition E w u fid sid ts tbm).1.mood_history =
      u.mood_history := by
  unfold recordStoryTransition
  dsimp only
  split <;> (try split) <;> rfl

theorem rst_cm (E : Engine) (w : ℚ) (u : UserProfile) (fid sid : String)
    (ts tbm : ℚ) :
    (recordStoryTransition E w u fid sid ts tbm).1.current_mood =
      u.current_mood := by
  unfold recordStoryTransition
  dsimp only
  split <;> (try split) <;> rfl

theorem gm_writeUser {E : Engine} (uid : String) (u' : UserProfile)
    (h : GoodMoods E)
    (h1 : ∀ q ∈ u'.mood_history, q.2 ≠ (0 : ℚ))
    (h2 : ∀ m, u'.current_mood = some m → m ≠ 0)
    (h3 : ∀ t ∈ u'.story_sequences,
      t.mood_before ≠ some 0 ∧ t.mood_after ≠ some 0) :
    GoodMoods (writeUser E uid u') := by
  constructor
  · intro p hp
    rcases mem_aupsert hp with hh | hh
    · rw [hh]
      exact ⟨h1, h2, h3⟩
    · exact h.1 p hh
  · exact h.2

theorem gm_setmood {E : Engine} (uid : String) (u1 : UserProfile)
    (m ts2 : ℚ) (h : GoodMoods E) (hm : m ≠ 0)
    (h1 : ∀ q ∈ u1.mood_history, q.2 ≠ (0 : ℚ))
    (h3 : ∀ t ∈ u1.story_sequences,
      t.mood_before ≠ some 0 ∧ t.mood_after ≠ some 0) :
    GoodMoods (writeUser E uid (updateMoodTrajectory
      { u1 with
          current_mood := some m
          mood_history := u1.mood_history ++ [(ts2, m)] })) := by
  refine gm_writeUser uid _ h ?_ ?_ ?_
  · rw [updateMoodTrajectory_mood_history]
    intro q hq
    rcases List.mem_append.mp hq with hq1 | hq1
    · exact h1 q hq1
    · rw [List.mem_singleton.mp hq1]
      exact hm
  · rw [updateMoodTrajectory_current_mood]
    intro m0 hm0
    exact Option.some.inj hm0 ▸ hm
  · rw [updateMoodTrajectory_story_sequences]
    exact h3

theorem gm_record {E : Engine} (w : ℚ) (u : UserProfile)
    (uid fid sid sid2 : String) (ts tbm ts2 : ℚ)
    (h : GoodMoods E)
    (h1 : ∀ q ∈ u.mood_history, q.2 ≠ (0 : ℚ))
    (h2 : ∀ m, u.current_mood = some m → m ≠ 0)
    (h3 : ∀ t ∈ u.story_sequences,
      t.mood_before ≠ some 0 ∧ t.mood_after ≠ some 0) :
    GoodMoods (writeUser (recordStoryTransition E w u fid sid ts tbm).2 uid
      { (recordStoryTransition E w u fid sid ts tbm).1 with
          last_completed_story := some sid2
          last_completed_timestamp := some ts2 }) := by
  have hT : (mkTransition E.next_tid fid sid u.user_id ts
      (match u.last_completed_timestamp with
       | some lct =>
         ((u.mood_history.reverse).find? (fun p => decide (p.1 ≤ lct))).map
           (fun p => p.2)
       | none => none)
      u.current_mood tbm).mood_before ≠ some 0 ∧
      (mkTransition E.next_tid fid sid u.user_id ts
        (match u.last_completed_timestamp with
         | some lct =>
           ((u.mood_history.reverse).find? (fun p => decide (p.1 ≤ lct))).map
             (fun p => p.2)
         | none => none)
        u.current_mood tbm).mood_after ≠ some 0 := by
    constructor
    · exact gm_mb_hist h1
    · exact fun hx => h2 0 hx rfl
  constructor
  · intro p hp
    rcases mem_aupsert hp with hh | hh
    · rw [hh]
      refine ⟨?_, ?_, ?_⟩
      · show ∀ q ∈ (recordStoryTransition E w u fid sid ts
            tbm).1.mood_history, q.2 ≠ (0 : ℚ)
        rw [rst_hist]
        exact h1
      · show ∀ m0, (recordStoryTransition E w u fid sid ts
            tbm).1.current_mood = some m0 → m0 ≠ 0
        rw [rst_cm]
        exact h2
      · show ∀ t ∈ (recordStoryTransition E w u fid sid ts
            tbm).1.story_sequences,
          t.mood_before ≠ some 0 ∧ t.mood_after ≠ some 0
        rw [rst_seqs]
        intro t ht
        rcases List.mem_append.mp ht with h4 | h4
        · exact h3 t h4
        · rw [List.mem_singleton.mp h4]
          exact hT
    · rw [rst_eng, updateStoryTransitionStats_users] at hh
      exact h.1 p hh
  · rw [writeUser_story_transitions, rst_eng,
      updateStoryTransitionStats_story_transitions]
    dsimp only
    intro t ht
    rcases List.mem_append.mp ht with h4 | h4
    · exact h.2 t h4
    · rw [List.mem_singleton.mp h4]
      exact hT

theorem gm_moodafter {EC : Engine} {w : ℚ} {u' : UserProfile}
    {uid sid : String} {m ts2 : ℚ}
    (husers : ∀ p ∈ EC.users,
      (∀ q ∈ p.2.mood_history, q.2 ≠ (0 : ℚ)) ∧
      (∀ m0, p.2.current_mood = some m0 → m0 ≠ 0) ∧
      (∀ t ∈ p.2.story_sequences,
        t.mood_before ≠ some 0 ∧ t.mood_after ≠ some 0))
    (hglob : ∀ t ∈ EC.story_transitions,
      t.mood_before ≠ some 0 ∧ t.mood_after ≠ some 0)
    (hm : m ≠ 0)
    (hgood : ∀ t ∈ u'.story_sequences,
      t.mood_after = none → t.mood_before = none)
    (h1 : ∀ q ∈ u'.mood_history, q.2 ≠ (0 : ℚ))
    (h3 : ∀ t ∈ u'.story_sequences,
      t.mood_before ≠ some 0 ∧ t.mood_after ≠ some 0) :
    GoodMoods (writeUser (updateRecentTransitionMood EC w u' sid m).2 uid
      (updateMoodTrajectory
        { (updateRecentTransitionMood EC w u' sid m).1 with
            current_mood := some m
            mood_history :=
              (updateRecentTransitionMood EC w u' sid m).1.mood_history ++
                [(ts2, m)] })) := by
  unfold updateRecentTransitionMood
  cases hlast : u'.story_sequences.getLast? with
  | none =>
    dsimp only
    exact gm_setmood uid u' m ts2 ⟨husers, hglob⟩ hm h1 h3
  | some lastT =>
    dsimp only
    by_cases hcond : lastT.to_story_id = sid ∧ lastT.mood_after = none
    · rw [if_pos hcond]
      cases hmb : lastT.mood_before with
      | some mb =>
        exfalso
        have := hgood lastT (getLast?_mem' hlast) hcond.2
        rw [this] at hmb
        cases hmb
      | none =>
        dsimp only
        refine gm_setmood uid
          { u' with story_sequences :=
              u'.story_sequences.map (patchT lastT.tid m none) }
          m ts2 ⟨?_, ?_⟩ hm ?_ ?_
        · intro p hp
          exact husers p hp
        · exact gm_map_patch _ _ _ hm hglob
        · exact h1
        · exact gm_map_patch _ _ _ hm h3
    · rw [if_neg hcond]
      exact gm_setmood uid u' m ts2 ⟨husers, hglob⟩ hm h1 h3

theorem goodMoods_addEvent (e : Engine) (w : ℚ) (ev : AnalyticsEvent)
    (hc : InvCore e) (hg : GoodMoods e)
    (hm : ∀ m, ev.data.mood_score = some m → m ≠ 0) :
    GoodMoods (addEvent e w ev).1 := by
  have hgb := goodMoods_ingestBase ev hg
  have hgf := gmFetch ev hg
  have hgp := goodProfile_ingestFetch ev hc
  unfold addEvent
  dsimp only
  repeat' split
  all_goals first
    | exact hgb
    | (refine gm_writeUser _ _ hgb ?_ ?_ ?_
       · exact hgf.1
       · exact hgf.2.1
       · exact hgf.2.2)
    | (refine gm_record w _ _ _ _ _ _ _ _ hgb ?_ ?_ ?_
       · exact hgf.1
       · exact hgf.2.1
       · exact hgf.2.2)
    | (refine gm_setmood _ _ _ _ hgb ?_ ?_ ?_
       · exact hm _ ‹_›
       · exact hgf.1
       · exact hgf.2.2)
    | (refine gm_moodafter ?_ ?_ ?_ ?_ ?_ ?_
       · exact hgb.1
       · exact hgb.2
       · exact hm _ ‹_›
       · exact hgp.2
       · exact hgf.1
       · exact hgf.2.2)
    | (refine gm_moodafter ?_ ?_ ?_ ?_ ?_ ?_
       · intro p hp
         rw [updateStoryMoodStats_users] at hp
         exact hgb.1 p hp
       · intro t ht
         rw [updateStoryMoodStats_story_transitions] at ht
         exact hgb.2 t ht
       · exact hm _ ‹_›
       · exact hgp.2
       · exact hgf.1
       · exact hgf.2.2)

theorem storyPhase_foldl :
    ∀ (sos : List Op), (∀ op ∈ sos, op.isStory) →
      ∀ e : Engine, e.users = [] → e.story_transitions = [] →
        e.global_transition_graph = [] →
        (sos.foldl applyOp e).users = [] ∧
          (sos.foldl applyOp e).story_transitions = [] ∧
          (sos.foldl applyOp e).global_transition_graph = [] := by
  intro sos
  induction sos with
  | nil => intro _ e h1 h2 h3; exact ⟨h1, h2, h3⟩
  | cons op rest ih =>
    intro hs e h1 h2 h3
    rw [List.foldl_cons]
    cases op with
    | story sid title theme tags =>
      exact ih (fun o ho => hs o (List.mem_cons_of_mem _ ho)) _ h1 h2 h3
    | event w ev => exact absurd (hs _ (List.mem_cons_self _ _)) (fun hh => hh)

theorem idxInv_of_empty {e : Engine} (hu : e.users = [])
    (ht : e.story_transitions = []) (hg : e.global_transition_graph = []) :
    IdxInv e := by
  constructor
  · rw [hg, ht]
    rfl
  · intro p hp
    rw [hu] at hp
    cases hp

theorem goodMoods_of_empty {e : Engine} (hu : e.users = [])
    (ht : e.story_transitions = []) : GoodMoods e := by
  constructor
  · intro p hp
    rw [hu] at hp
    cases hp
  · intro t ht'
    rw [ht] at ht'
    cases ht'

theorem inv3_foldl :
    ∀ (eos : List Op), (∀ op ∈ eos, op.goodMood ∧ ¬ op.isStory) →
      ∀ e : Engine, InvCore e → IdxInv e → GoodMoods e →
        InvCore (eos.foldl applyOp e) ∧ IdxInv (eos.foldl applyOp e) ∧
          GoodMoods (eos.foldl applyOp e) := by
  intro eos
  induction eos with
  | nil => intro _ e h1 h2 h3; exact ⟨h1, h2, h3⟩
  | cons op rest ih =>
    intro hs e h1 h2 h3
    rw [List.foldl_cons]
    cases op with
    | story sid title theme tags =>
      exact absurd trivial (hs _ (List.mem_cons_self _ _)).2
    | event w ev =>
      refine ih (fun o ho => hs o (List.mem_cons_of_mem _ ho)) _ ?_ ?_ ?_
      · exact invCore_addEvent e w ev h1
      · exact idxInv_addEvent e w ev h1 h2
      · exact goodMoods_addEvent e w ev h1 h3
          (hs _ (List.mem_cons_self _ _)).1

theorem inv3_run (sos eos : List Op) (hs : ∀ op ∈ sos, op.isStory)
    (he : ∀ op ∈ eos, op.goodMood ∧ ¬ op.isStory) :
    InvCore (runOps (sos ++ eos)) ∧ IdxInv (runOps (sos ++ eos)) ∧
      GoodMoods (runOps (sos ++ eos)) := by
  unfold runOps
  rw [List.foldl_append]
  obtain ⟨hu, ht, hg⟩ := storyPhase_foldl sos hs emptyEngine rfl rfl rfl
  exact inv3_foldl eos he _
    (invCore_foldl sos emptyEngine invCore_emptyEngine)
    (idxInv_of_empty hu ht hg) (goodMoods_of_empty hu ht)

theorem enum_load_toData (g : ℕ → ℕ) :
    ∀ (ds : List TransitionData) (n : ℕ),
      ((List.enumFrom n ds).map
          (fun p => loadTransition (g p.1) p.2)).map StoryTransition.toData =
        ds.map reloadData := by
  intro ds
  induction ds with
  | nil => intro n; rfl
  | cons d rest ih =>
    intro n
    rw [List.enumFrom_cons, List.map_cons, List.map_cons, ih]
    rfl

theorem map_reload_toData (l : List StoryTransition)
    (hl : ∀ t ∈ l, t.mood_before ≠ some 0 ∧ t.mood_after ≠ some 0) :
    (l.map StoryTransition.toData).map reloadData =
      l.map StoryTransition.toData := by
  rw [List.map_map]
  refine List.map_congr_left ?_
  intro t ht
  exact reloadData_eq _ (hl t ht).1 (hl t ht).2

theorem loadUser_proj (S : List (String × Story)) (k : ℕ) (uid : String)
    (ud : SavedUser) :
    (loadUser S k uid ud).preferred_transitions =
      rebuildPreferredData (ud.story_sequences.map reloadData) ∧
    (loadUser S k uid ud).theme_transition_preferences =
      rebuildThemeData S (ud.story_sequences.map reloadData) := by
  have hseq : ((ud.story_sequences.enum.map
      (fun q => loadTransition (k + q.1) q.2)).map StoryTransition.toData) =
      ud.story_sequences.map reloadData := by
    show ((List.enumFrom 0 ud.story_sequences).map
        (fun q => loadTransition (k + q.1) q.2)).map StoryTransition.toData =
      ud.story_sequences.map reloadData
    exact enum_load_toData (fun n => k + n) ud.story_sequences 0
  constructor
  · show rebuildPreferred (ud.story_sequences.enum.map
        (fun q => loadTransition (k + q.1) q.2)) =
      rebuildPreferredData (ud.story_sequences.map reloadData)
    rw [rebuildPreferred_factor, hseq]
  · show rebuildTheme S (ud.story_sequences.enum.map
        (fun q => loadTransition (k + q.1) q.2)) =
      rebuildThemeData S (ud.story_sequences.map reloadData)
    rw [rebuildTheme_factor, hseq]

theorem loadFold_proj (S : List (String × Story)) :
    ∀ (us : List (String × SavedUser))
      (acc : List (String × UserProfile) × ℕ),
      ((us.foldl
          (fun (acc : List (String × UserProfile) × ℕ) p =>
            (acc.1 ++ [(p.1, loadUser S acc.2 p.1 p.2)],
              acc.2 + p.2.story_sequences.length))
          acc).1).map
        (fun p => (p.1, p.2.preferred_transitions,
          p.2.theme_transition_preferences)) =
      (acc.1.map (fun p => (p.1, p.2.preferred_transitions,
          p.2.theme_transition_preferences))) ++
        us.map (fun p => (p.1,
          rebuildPreferredData (p.2.story_sequences.map reloadData),
          rebuildThemeData S (p.2.story_sequences.map reloadData))) := by
  intro us
  induction us with
  | nil => intro acc; rw [List.foldl_nil, List.map_nil, List.append_nil]
  | cons p rest ih =>
    intro acc
    rw [List.foldl_cons, ih, List.map_cons, List.map_append,
      List.append_assoc]
    congr 1
    rw [List.map_singleton, List.singleton_append]
    congr 1
    have hl := loadUser_proj S acc.2 p.1 p.2
    exact Prod.ext rfl (Prod.ext hl.1 hl.2)

theorem roundTrip_idx {e : Engine} (hidx : IdxInv e) (hgm : GoodMoods e) :
    engineIndices (loadState (saveState e)) = engineIndices e := by
  unfold engineIndices
  refine Prod.ext ?_ ?_
  · show graphData (rebuildGraph
        ((saveState e).story_transitions.enum.map
          (fun p => loadTransition p.1 p.2))) =
      graphData e.global_transition_graph
    rw [graphData_rebuildGraph]
    have hg : (((saveState e).story_transitions.enum.map
        (fun p => loadTransition p.1 p.2)).map StoryTransition.toData) =
        (saveState e).story_transitions.map reloadData := by
      show ((List.enumFrom 0 (saveState e).story_transitions).map
          (fun p => loadTransition p.1 p.2)).map StoryTransition.toData =
        (saveState e).story_transitions.map reloadData
      exact enum_load_toData (fun n => n) (saveState e).story_transitions 0
    rw [hg]
    show rebuildGraphData
        ((e.story_transitions.map StoryTransition.toData).map reloadData) =
      graphData e.global_transition_graph
    rw [map_reload_toData e.story_transitions hgm.2, hidx.1,
      graphData_rebuildGraph]
  · show (((saveState e).users.foldl
        (fun (acc : List (String × UserProfile) × ℕ) p =>
          (acc.1 ++ [(p.1, loadUser (saveState e).stories acc.2 p.1 p.2)],
            acc.2 + p.2.story_sequences.length))
        ([], ((saveState e).story_transitions.enum.map
          (fun p => loadTransition p.1 p.2)).length)).1).map
        (fun p => (p.1, p.2.preferred_transitions,
          p.2.theme_transition_preferences)) =
      e.users.map (fun p => (p.1, p.2.preferred_transitions,
        p.2.theme_transition_preferences))
    rw [loadFold_proj]
    rw [List.map_nil, List.nil_append]
    show ((e.users.map (fun p => ((p.1,
        { user_id := p.2.user_id
          viewed_stories := p.2.viewed_stories
          completed_stories := p.2.completed_stories
          favorited_stories := p.2.favorited_stories
          theme_interactions := p.2.theme_interactions
          mood_history := p.2.mood_history
          current_mood := p.2.current_mood
          story_mood_impact := p.2.story_mood_impact
          recent_story_views := p.2.recent_story_views
          recommendation_mix := p.2.recommendation_mix
          mood_trend := p.2.mood_trend
          mood_volatility_sq := p.2.mood_volatility_sq
          story_sequences := p.2.story_sequences.map StoryTransition.toData
          last_completed_story := p.2.last_completed_story
          last_completed_timestamp :=
            p.2.last_completed_timestamp }) : String × SavedUser))).map
        (fun p => (p.1,
          rebuildPreferredData (p.2.story_sequences.map reloadData),
          rebuildThemeData (saveState e).stories
            (p.2.story_sequences.map reloadData)))) =
      e.users.map (fun p => (p.1, p.2.preferred_transitions,
        p.2.theme_transition_preferences))
    rw [List.map_map]
    refine List.map_congr_left ?_
    intro p hp
    have hseqs := (hgm.1 p hp).2.2
    have h2 := hidx.2 p hp
    show (p.1,
        rebuildPreferredData
          ((p.2.story_sequences.map StoryTransition.toData).map reloadData),
        rebuildThemeData e.stories
          ((p.2.story_sequences.map StoryTransition.toData).map
            reloadData)) =
      (p.1, p.2.preferred_transitions, p.2.theme_transition_preferences)
    rw [map_reload_toData _ hseqs, ← rebuildPreferred_factor,
      ← rebuildTheme_factor, ← h2.1, ← h2.2]

set_option synthInstance.maxSize 16384 in
/-- C3 (counterexample): the round trip is *not* an identity on the
derived indices for every reachable state.  In `cexC3Ops` the A→B
transition is ingested while story "B" is still absent from the catalog,
so the live theme-transition index never indexes it; `add_story "B"`
later completes the catalog, and the reload — which rebuilds the index
against the *final* catalog — produces a different theme index than the
live one. -/
theorem c3_round_trip_cex :
    engineIndices (loadState (saveState cexC3Engine)) ≠
      engineIndices cexC3Engine := by
  with_unfolding_all decide

/-- C3 (amended): the round trip `load_state (save_state ())` reproduces
the global transition graph (tid-erased) and every user's
preferred-transition and theme-transition indices exactly, provided the
operation sequence does all `add_story` calls before all `add_event`
calls (so no transition predates its stories' catalog entries) and every
ingested mood score is nonzero (so `from_dict`'s float truthiness cannot
drop a stored mood). -/
theorem c3_round_trip_amended (sos eos : List Op)
    (hs : ∀ op ∈ sos, op.isStory)
    (he : ∀ op ∈ eos, op.goodMood ∧ ¬ op.isStory) :
    engineIndices (loadState (saveState (runOps (sos ++ eos)))) =
      engineIndices (runOps (sos ++ eos)) := by
  obtain ⟨h1, h2, h3⟩ := inv3_run sos eos hs he
  exact roundTrip_idx h2 h3

/-- Closed witness for `c3_round_trip_amended`: catalog "A", "B" loaded
first, then the mood/completion events of the spec scenario. -/
theorem c3_round_trip_amended_witness :
    (∀ op ∈ witC3Sos, op.isStory) ∧
    (∀ op ∈ witC3Eos, op.goodMood ∧ ¬ op.isStory) ∧
    engineIndices (loadState (saveState (runOps (witC3Sos ++ witC3Eos)))) =
      engineIndices (runOps (witC3Sos ++ witC3Eos)) := by
  have hs : ∀ op ∈ witC3Sos, op.isStory := by
    intro op hop
    simp only [witC3Sos, List.mem_cons, List.not_mem_nil, or_false] at hop
    rcases hop with rfl | rfl
    · trivial
    · trivial
  have he : ∀ op ∈ witC3Eos, op.goodMood ∧ ¬ op.isStory := by
    intro op hop
    simp only [witC3Eos, List.mem_cons, List.not_mem_nil, or_false] at hop
    rcases hop with rfl | rfl | rfl
    · refine ⟨fun m hm => ?_, fun hh => hh⟩
      rw [← Option.some.inj hm]
      with_unfolding_all decide
    · exact ⟨fun m hm => (nomatch hm), fun hh => hh⟩
    · exact ⟨fun m hm => (nomatch hm), fun hh => hh⟩
  exact ⟨hs, he, c3_round_trip_amended witC3Sos witC3Eos hs he⟩

end Rec2
